import Mathlib

/-!
Verification development for the zelang compiler: a shallow embedding of the
tokenizer (pkg/lexer/lexer.go), the recursive-descent parser
(pkg/parser/parser.go) and the C code generator (pkg/codegen/c_generator.go),
together with theorems settling the specification's claims about them.

Strings are modelled with Lean `String`/`List Char`; the Go code works on
bytes, and the embedding is faithful for ASCII input (the language's grammar
is ASCII; `unicode.IsLetter` and `strings.ToLower` agree with the ASCII
versions used here on that range).
-/

namespace Zelang

/-- AST node `Decorator` (pkg/ast/ast.go): `@name(args)` annotations.  Go
stores keyword arguments in a `map[string]string`; the embedding keeps an
insertion-ordered association list (no consumer in the generator reads it). -/
structure Decorator where
  name : String
  args : List String
  kvargs : List (String × String)
deriving DecidableEq, Repr

/-- AST node `FieldDecl` (pkg/ast/ast.go): one field of a struct. -/
structure FieldDecl where
  name : String
  type : String
  isArray : Bool
  decorators : List Decorator
deriving DecidableEq, Repr

/-- AST node `StructDecl` (pkg/ast/ast.go). -/
structure StructDecl where
  name : String
  decorators : List Decorator
  fields : List FieldDecl
deriving DecidableEq, Repr

/-- AST node `PageDecl` (pkg/ast/ast.go); the parser fills only the name and
(at the decorated-statement call site) the decorators, and leaves the
properties/body empty, so only those components are carried. -/
structure PageDecl where
  name : String
  decorators : List Decorator
deriving DecidableEq, Repr

/-- AST node `Parameter` (pkg/ast/ast.go). -/
structure Parameter where
  name : String
  type : String
deriving DecidableEq, Repr

/-- AST node `HandlerDecl` (pkg/ast/ast.go); path/method/body are never set by
the parser and never read by the generator. -/
structure HandlerDecl where
  name : String
  parameters : List Parameter
  decorators : List Decorator
deriving DecidableEq, Repr

/-- AST node `FunctionDecl` (pkg/ast/ast.go); the body is skipped as an opaque
brace-balanced span and never stored. -/
structure FunctionDecl where
  name : String
  returnType : String
deriving DecidableEq, Repr

/-- The tagged union of top-level AST nodes the parser can produce
(`ast.Node` implementors returned by `parseStatement`). -/
inductive Node where
  | structDecl (s : StructDecl)
  | pageDecl (p : PageDecl)
  | handlerDecl (h : HandlerDecl)
  | funcDecl (f : FunctionDecl)
deriving DecidableEq, Repr

/-- AST root `Program` (pkg/ast/ast.go): ordered top-level declarations. -/
structure Program where
  statements : List Node
deriving DecidableEq, Repr

/-! ## Code generator: type mapping and field classification
(pkg/codegen/c_generator.go) -/

/-- Go `strings.ToLower` restricted to ASCII (agrees with it on ASCII
input); `String.toLower` itself is not kernel-reducible. -/
def goToLower (s : String) : String := ⟨s.data.map Char.toLower⟩

/-- `mapType` (c_generator.go:109): domain type name to C type. -/
def mapType (zlType : String) : String :=
  if zlType = "int" then "int64_t"
  else if zlType = "float" then "double"
  else if zlType = "string" then "char*"
  else if zlType = "bool" then "int"
  else if zlType = "date" then "char*"
  else if zlType = "datetime" then "char*"
  else zlType

/-- `mapSQLType` (c_generator.go:193): domain type name to SQL column type. -/
def mapSQLType (zlType : String) : String :=
  if zlType = "int" then "INTEGER"
  else if zlType = "float" then "REAL"
  else if zlType = "string" then "TEXT"
  else if zlType = "bool" then "INTEGER"
  else if zlType = "date" then "TEXT"
  else if zlType = "datetime" then "TEXT"
  else "TEXT"

/-- One case of the `switch dec.Name` in `getFieldConstraints`
(c_generator.go:210): the constraint text a single decorator contributes. -/
def decConstraint (n : String) : String :=
  if n = "primary" then " PRIMARY KEY"
  else if n = "autoincrement" then " AUTOINCREMENT"
  else if n = "required" then " NOT NULL"
  else if n = "unique" then " UNIQUE"
  else ""

/-- `getFieldConstraints` (c_generator.go:210): concatenates constraint text
over the field's decorators in order. -/
def getFieldConstraints (f : FieldDecl) : String :=
  f.decorators.foldl (fun acc d => acc ++ decConstraint d.name) ""

/-- The `isAuto` test of `generateCreate` (c_generator.go:240-244): any
decorator named `autoincrement` or `timestamp`. -/
def isAutoCreate (f : FieldDecl) : Bool :=
  f.decorators.any (fun d => d.name == "autoincrement" || d.name == "timestamp")

/-- The `isAuto` test of `generateFormHTML` and `generateRouteHandler`
(c_generator.go:758-762, 875-879): any decorator named `autoincrement` or
`primary`. -/
def isAutoForm (f : FieldDecl) : Bool :=
  f.decorators.any (fun d => d.name == "autoincrement" || d.name == "primary")

/-- `isPrimary` as computed in `generateCreate`'s populate loop
(c_generator.go:315-324). -/
def isPrimaryDec (f : FieldDecl) : Bool :=
  f.decorators.any (fun d => d.name == "primary")

/-- `isAuto` as computed in `generateCreate`'s populate loop
(c_generator.go:315-324): only `autoincrement` counts there. -/
def isAutoincDec (f : FieldDecl) : Bool :=
  f.decorators.any (fun d => d.name == "autoincrement")

/-- The `if field.IsArray { continue }` loops shared by `generateInitTable`,
`generateFind`, `generateAll` and `generateDataListHTML`: the non-array
fields in declaration order. -/
def nonArrayFields : List FieldDecl → List FieldDecl
  | [] => []
  | f :: fs => if f.isArray then nonArrayFields fs else f :: nonArrayFields fs

/-- The `nonAutoFields` accumulation of `generateCreate`
(c_generator.go:233-251): non-array fields without an
`autoincrement`/`timestamp` decorator, in declaration order. -/
def createFields : List FieldDecl → List FieldDecl
  | [] => []
  | f :: fs =>
    if f.isArray then createFields fs
    else if isAutoCreate f then createFields fs
    else f :: createFields fs

/-- The field selection of `generateFormHTML` (c_generator.go:752-766):
non-array fields without an `autoincrement`/`primary` decorator. -/
def formFields : List FieldDecl → List FieldDecl
  | [] => []
  | f :: fs =>
    if f.isArray then formFields fs
    else if isAutoForm f then formFields fs
    else f :: formFields fs

/-- `strings.Trim(arg, "\"")` as used by `getTableName` (c_generator.go:149):
removes all leading and trailing double-quote characters. -/
def trimQuotes (s : String) : String :=
  ⟨(((s.data.dropWhile (fun c => c = '"')).reverse.dropWhile
      (fun c => c = '"')).reverse)⟩

/-- The decorator scan of `getTableName` (c_generator.go:147-151): the first
decorator named `table` with at least one argument wins. -/
def tableNameFromDecs : List Decorator → Option String
  | [] => none
  | d :: ds =>
    if d.name = "table" then
      match d.args with
      | a :: _ => some (trimQuotes a)
      | [] => tableNameFromDecs ds
    else tableNameFromDecs ds

/-- `getTableName` (c_generator.go:145-154): `table` decorator argument with
quotes trimmed, else lowercased struct name with a trailing "s". -/
def getTableName (s : StructDecl) : String :=
  match tableNameFromDecs s.decorators with
  | some t => t
  | none => goToLower s.name ++ "s"

/-- The right-hand side assigned to a struct member in `generateCreate`'s
populate loop (c_generator.go:311-336). -/
inductive AssignSrc where
  | lastInsertId
  | fromParam (dup : Bool)
deriving DecidableEq, Repr

/-- The branch condition and body of c_generator.go:326-335: a field that is
(named "id" or primary) and autoincrement is filled from
`sqlite3_last_insert_rowid`; every other field is copied from the parameter
of the same name, `char*`-typed ones through `strdup`. -/
def assignSrc (f : FieldDecl) : AssignSrc :=
  if (f.name == "id" || isPrimaryDec f) && isAutoincDec f then .lastInsertId
  else .fromParam (mapType f.type == "char*")

/-- The kind of form control `generateFormHTML` emits for a field
(c_generator.go:768-788). -/
inductive InputKind where
  | textarea
  | checkbox
  | number
  | text
deriving DecidableEq, Repr

/-- The branch structure of c_generator.go:774-785: `char*`-mapped fields get
a textarea when named "description", else a text input; `bool`-typed fields a
checkbox; everything else a number input. -/
def inputKind (f : FieldDecl) : InputKind :=
  if mapType f.type == "char*" then
    if f.name == "description" then .textarea else .text
  else if f.type == "bool" then .checkbox
  else .number

/-- Whether the control emitted for a field carries the HTML `required`
attribute: the textarea, text and number templates of c_generator.go:777,
779, 784 hard-code it, the checkbox template of line 782 omits it. -/
def controlHasRequiredAttr (f : FieldDecl) : Bool :=
  if mapType f.type == "char*" then true
  else if f.type == "bool" then false
  else true

/-- The parameter-list entries of the generated create function
(c_generator.go:247-248): `cType name` per kept field. -/
def createParams (s : StructDecl) : List String :=
  (createFields s.fields).map (fun f => mapType f.type ++ " " ++ f.name)

/-- The column-name list of the generated INSERT statement
(c_generator.go:259-263). -/
def insertColumnNames (s : StructDecl) : List String :=
  (createFields s.fields).map (fun f => f.name)

/-! ## Code generator: text emission
Transcription note: Go's `fmt.Sprintf`/`WriteString` calls become string
concatenation; brace characters in emitted C text are written with the
`\x7b`/`\x7d` escapes. -/

/-- `strings.Join` with a separator. -/
def joinSep (sep : String) : List String → String
  | [] => ""
  | [x] => x
  | x :: xs => x ++ sep ++ joinSep sep xs

/-- Go `strings.Title`'s separator test, restricted to ASCII
(letters, digits and underscore are non-separators). -/
def isSepGo (c : Char) : Bool := !(c.isAlpha || c.isDigit || c == '_')

/-- Go `strings.Title` (ASCII): uppercase a character that follows a
separator; the scan starts in separator state. -/
def goTitleAux (prev : Char) : List Char → List Char
  | [] => []
  | c :: cs => (if isSepGo prev then c.toUpper else c) :: goTitleAux c cs

/-- Go `strings.Title` (ASCII) as used for table headers and form labels. -/
def goTitle (s : String) : String := ⟨goTitleAux ' ' s.data⟩

/-- The member lines of `generateStruct`'s loop (c_generator.go:96-104). -/
def structFieldLines : List FieldDecl → String
  | [] => ""
  | f :: fs =>
    (if f.isArray then
      "    " ++ mapType f.type ++ "* " ++ f.name ++ ";\n"
        ++ "    int " ++ f.name ++ "_count;\n"
    else
      "    " ++ mapType f.type ++ " " ++ f.name ++ ";\n")
    ++ structFieldLines fs

/-- `generateStruct` (c_generator.go:92-107). -/
def generateStruct (s : StructDecl) : String :=
  "// Struct: " ++ s.name ++ "\n"
  ++ "typedef struct " ++ s.name ++ " \x7b\n"
  ++ structFieldLines s.fields
  ++ "\x7d " ++ s.name ++ ";\n\n"

/-- The column block of `generateInitTable` (c_generator.go:171-178): each
column string on its own line, comma strings between them. -/
def initTableColsBlock : List String → String
  | [] => ""
  | [x] => x ++ "\n"
  | x :: xs => x ++ "\n" ++ "        \",\"\n" ++ initTableColsBlock xs

/-- `generateInitTable` (c_generator.go:156-191). -/
def generateInitTable (s : StructDecl) (tableName : String) : String :=
  "void " ++ s.name ++ "_init_table() \x7b\n"
  ++ "    char *sql = \"CREATE TABLE IF NOT EXISTS " ++ tableName ++ " (\"\n"
  ++ initTableColsBlock ((nonArrayFields s.fields).map (fun f =>
      "        \"" ++ f.name ++ " " ++ mapSQLType f.type
        ++ getFieldConstraints f ++ "\""))
  ++ "        \")\";\n"
  ++ "    \n"
  ++ "    char *err_msg = NULL;\n"
  ++ "    int rc = sqlite3_exec(db, sql, NULL, NULL, &err_msg);\n"
  ++ "    if (rc != SQLITE_OK) \x7b\n"
  ++ "        fprintf(stderr, \"SQL error: %s\\n\", err_msg);\n"
  ++ "        sqlite3_free(err_msg);\n"
  ++ "    \x7d else \x7b\n"
  ++ "        printf(\"Table " ++ tableName ++ " created successfully\\n\");\n"
  ++ "    \x7d\n"
  ++ "\x7d\n\n"

/-- The bind-parameter lines of `generateCreate` (c_generator.go:282-294),
indexed from 1. -/
def bindLines (i : Nat) : List FieldDecl → String
  | [] => ""
  | f :: fs =>
    (let t := mapType f.type
     if t = "int64_t" then
       "    sqlite3_bind_int64(stmt, " ++ toString i ++ ", " ++ f.name ++ ");\n"
     else if t = "double" then
       "    sqlite3_bind_double(stmt, " ++ toString i ++ ", " ++ f.name ++ ");\n"
     else if t = "char*" then
       "    sqlite3_bind_text(stmt, " ++ toString i ++ ", " ++ f.name
         ++ ", -1, SQLITE_TRANSIENT);\n"
     else "")
    ++ bindLines (i + 1) fs

/-- The populate lines of `generateCreate` (c_generator.go:311-336); the
branch per field is `assignSrc`. -/
def populateLines : List FieldDecl → String
  | [] => ""
  | f :: fs =>
    (if f.isArray then ""
     else
       match assignSrc f with
       | .lastInsertId => "    obj->" ++ f.name ++ " = last_insert_id;\n"
       | .fromParam true => "    obj->" ++ f.name ++ " = strdup(" ++ f.name ++ ");\n"
       | .fromParam false => "    obj->" ++ f.name ++ " = " ++ f.name ++ ";\n")
    ++ populateLines fs

/-- `generateCreate` (c_generator.go:229-340). -/
def generateCreate (s : StructDecl) (tableName : String) : String :=
  s.name ++ "* " ++ s.name ++ "_create("
  ++ joinSep ", " (createParams s)
  ++ ") \x7b\n"
  ++ "    char sql[1024];\n"
  ++ "    sprintf(sql, \"INSERT INTO " ++ tableName ++ " ("
  ++ joinSep ", " (insertColumnNames s)
  ++ ") VALUES ("
  ++ joinSep ", " ((createFields s.fields).map (fun _ => "?"))
  ++ ")\");\n\n"
  ++ "    sqlite3_stmt *stmt;\n"
  ++ "    int rc = sqlite3_prepare_v2(db, sql, -1, &stmt, NULL);\n"
  ++ "    if (rc != SQLITE_OK) \x7b\n"
  ++ "        fprintf(stderr, \"Failed to prepare statement: %s\\n\", sqlite3_errmsg(db));\n"
  ++ "        return NULL;\n"
  ++ "    \x7d\n\n"
  ++ bindLines 1 (createFields s.fields)
  ++ "\n    rc = sqlite3_step(stmt);\n"
  ++ "    if (rc != SQLITE_DONE) \x7b\n"
  ++ "        fprintf(stderr, \"Failed to insert: %s\\n\", sqlite3_errmsg(db));\n"
  ++ "        sqlite3_finalize(stmt);\n"
  ++ "        return NULL;\n"
  ++ "    \x7d\n\n"
  ++ "    int64_t last_insert_id = sqlite3_last_insert_rowid(db);\n"
  ++ "    sqlite3_finalize(stmt);\n\n"
  ++ "    " ++ s.name ++ "* obj = (" ++ s.name ++ "*)malloc(sizeof(" ++ s.name ++ "));\n"
  ++ populateLines s.fields
  ++ "\n    return obj;\n"
  ++ "\x7d\n\n"

/-- The column-read lines shared by `generateFind` (indent 4,
c_generator.go:367-383) and `generateAll` (indent 8, c_generator.go:419-435);
`colIndex` counts every non-array field, read or not. -/
def colReadLines (indent : String) (i : Nat) : List FieldDecl → String
  | [] => ""
  | f :: fs =>
    (let t := mapType f.type
     if t = "int64_t" then
       indent ++ "obj->" ++ f.name ++ " = sqlite3_column_int64(stmt, " ++ toString i ++ ");\n"
     else if t = "double" then
       indent ++ "obj->" ++ f.name ++ " = sqlite3_column_double(stmt, " ++ toString i ++ ");\n"
     else if t = "char*" then
       indent ++ "obj->" ++ f.name
         ++ " = strdup((const char*)sqlite3_column_text(stmt, " ++ toString i ++ "));\n"
     else "")
    ++ colReadLines indent (i + 1) fs

/-- `generateFind` (c_generator.go:342-388). -/
def generateFind (s : StructDecl) (tableName : String) : String :=
  s.name ++ "* " ++ s.name ++ "_find(int64_t id) \x7b\n"
  ++ "    char *sql = \"SELECT * FROM " ++ tableName ++ " WHERE id = ?\";\n"
  ++ "    sqlite3_stmt *stmt;\n\n"
  ++ "    int rc = sqlite3_prepare_v2(db, sql, -1, &stmt, NULL);\n"
  ++ "    if (rc != SQLITE_OK) \x7b\n"
  ++ "        fprintf(stderr, \"Failed to prepare statement: %s\\n\", sqlite3_errmsg(db));\n"
  ++ "        return NULL;\n"
  ++ "    \x7d\n\n"
  ++ "    sqlite3_bind_int64(stmt, 1, id);\n\n"
  ++ "    rc = sqlite3_step(stmt);\n"
  ++ "    if (rc != SQLITE_ROW) \x7b\n"
  ++ "        sqlite3_finalize(stmt);\n"
  ++ "        return NULL;\n"
  ++ "    \x7d\n\n"
  ++ "    " ++ s.name ++ "* obj = (" ++ s.name ++ "*)malloc(sizeof(" ++ s.name ++ "));\n"
  ++ colReadLines "    " 0 (nonArrayFields s.fields)
  ++ "\n    sqlite3_finalize(stmt);\n"
  ++ "    return obj;\n"
  ++ "\x7d\n\n"

/-- `generateAll` (c_generator.go:390-444). -/
def generateAll (s : StructDecl) (tableName : String) : String :=
  s.name ++ "** " ++ s.name ++ "_all(int* count) \x7b\n"
  ++ "    char *sql = \"SELECT * FROM " ++ tableName ++ "\";\n"
  ++ "    sqlite3_stmt *stmt;\n\n"
  ++ "    int rc = sqlite3_prepare_v2(db, sql, -1, &stmt, NULL);\n"
  ++ "    if (rc != SQLITE_OK) \x7b\n"
  ++ "        fprintf(stderr, \"Failed to prepare statement: %s\\n\", sqlite3_errmsg(db));\n"
  ++ "        *count = 0;\n"
  ++ "        return NULL;\n"
  ++ "    \x7d\n\n"
  ++ "    int capacity = 10;\n"
  ++ "    " ++ s.name ++ "** results = (" ++ s.name ++ "**)malloc(capacity * sizeof(" ++ s.name ++ "*));\n"
  ++ "    int n = 0;\n\n"
  ++ "    while ((rc = sqlite3_step(stmt)) == SQLITE_ROW) \x7b\n"
  ++ "        if (n >= capacity) \x7b\n"
  ++ "            capacity *= 2;\n"
  ++ "            results = (" ++ s.name ++ "**)realloc(results, capacity * sizeof(" ++ s.name ++ "*));\n"
  ++ "        \x7d\n\n"
  ++ "        " ++ s.name ++ "* obj = (" ++ s.name ++ "*)malloc(sizeof(" ++ s.name ++ "));\n"
  ++ colReadLines "        " 0 (nonArrayFields s.fields)
  ++ "\n        results[n++] = obj;\n"
  ++ "    \x7d\n\n"
  ++ "    sqlite3_finalize(stmt);\n"
  ++ "    *count = n;\n"
  ++ "    return results;\n"
  ++ "\x7d\n\n"

/-- `generateDelete` (c_generator.go:446-470). -/
def generateDelete (s : StructDecl) (tableName : String) : String :=
  "int " ++ s.name ++ "_delete(int64_t id) \x7b\n"
  ++ "    char *sql = \"DELETE FROM " ++ tableName ++ " WHERE id = ?\";\n"
  ++ "    sqlite3_stmt *stmt;\n\n"
  ++ "    int rc = sqlite3_prepare_v2(db, sql, -1, &stmt, NULL);\n"
  ++ "    if (rc != SQLITE_OK) \x7b\n"
  ++ "        fprintf(stderr, \"Failed to prepare statement: %s\\n\", sqlite3_errmsg(db));\n"
  ++ "        return 0;\n"
  ++ "    \x7d\n\n"
  ++ "    sqlite3_bind_int64(stmt, 1, id);\n\n"
  ++ "    rc = sqlite3_step(stmt);\n"
  ++ "    sqlite3_finalize(stmt);\n\n"
  ++ "    if (rc != SQLITE_DONE) \x7b\n"
  ++ "        fprintf(stderr, \"Failed to delete: %s\\n\", sqlite3_errmsg(db));\n"
  ++ "        return 0;\n"
  ++ "    \x7d\n\n"
  ++ "    return 1;\n"
  ++ "\x7d\n\n"

/-- `generateCRUD` (c_generator.go:126-143): one `getTableName` call feeds
all five emitters. -/
def generateCRUD (s : StructDecl) : String :=
  let tableName := getTableName s
  generateInitTable s tableName
  ++ generateCreate s tableName
  ++ generateFind s tableName
  ++ generateAll s tableName
  ++ generateDelete s tableName

/-- `generateHeaders` (c_generator.go:68-90). -/
def generateHeaders (hasWeb : Bool) : String :=
  "#include <stdio.h>\n#include <stdlib.h>\n#include <string.h>\n#include <sqlite3.h>\n"
  ++ (if hasWeb then "#include <ctype.h>\n#include <microhttpd.h>\n" else "")
  ++ "\n// Global database connection\nsqlite3 *db = NULL;\n\n"
  ++ (if hasWeb then "// Global HTTP server\nstruct MHD_Daemon *http_daemon = NULL;\n\n"
      else "")

/-- The `X_init_table();` call lines of both main emitters
(c_generator.go:483-485, 981-983). -/
def initCalls : List StructDecl → String
  | [] => ""
  | s :: ss => "    " ++ s.name ++ "_init_table();\n" ++ initCalls ss

/-- The `nonAutoFields` selection of `generateMain`'s demo
(c_generator.go:500-511): neither `autoincrement`/`timestamp`-decorated nor
array. -/
def mainDemoFields : List FieldDecl → List FieldDecl
  | [] => []
  | f :: fs =>
    if !isAutoCreate f && !f.isArray then f :: mainDemoFields fs
    else mainDemoFields fs

/-- The sample rows of `generateMain` (c_generator.go:514-518). -/
def demoSamples : List (List String) :=
  [["John Doe", "Class A"], ["Jane Smith", "Class B"], ["Bob Johnson", "Class A"]]

/-- The argument list of one sample create call (c_generator.go:523-535):
`char*` fields take the j-th sample string (or "Sample" past the end), the
rest take `(i+1)*10`. -/
def demoArgs (i : Nat) (sample : List String) (j : Nat) : List FieldDecl → List String
  | [] => []
  | f :: fs =>
    (if mapType f.type = "char*" then "\"" ++ sample.getD j "Sample" ++ "\""
     else toString ((i + 1) * 10))
    :: demoArgs i sample (j + 1) fs

/-- The sample create calls of `generateMain` (c_generator.go:520-542). -/
def demoCreates (s : StructDecl) (tn : String) (i : Nat) : List (List String) → String
  | [] => ""
  | sample :: rest =>
    "    " ++ s.name ++ "* " ++ tn ++ toString (i + 1) ++ " = " ++ s.name ++ "_create("
    ++ joinSep ", " (demoArgs i sample 0 (mainDemoFields s.fields))
    ++ ");\n"
    ++ "    if (" ++ tn ++ toString (i + 1) ++ ") printf(\"  Created " ++ s.name
    ++ " with ID: %lld\\n\", " ++ tn ++ toString (i + 1) ++ "->id);\n\n"
    ++ demoCreates s tn (i + 1) rest

/-- The all-fields print lines of the find demo (c_generator.go:552-564). -/
def demoPrintLines : List FieldDecl → String
  | [] => ""
  | f :: fs =>
    (if f.isArray then ""
     else
       let t := mapType f.type
       if t = "char*" then
         "        printf(\"" ++ f.name ++ "=%s \", found->" ++ f.name ++ ");\n"
       else if t = "int64_t" then
         "        printf(\"" ++ f.name ++ "=%lld \", found->" ++ f.name ++ ");\n"
       else if t = "double" then
         "        printf(\"" ++ f.name ++ "=%f \", found->" ++ f.name ++ ");\n"
       else "")
    ++ demoPrintLines fs

/-- The first-string-field print line of the list demo
(c_generator.go:578-588): only the first `char*` field is printed. -/
def firstStringPrint : List FieldDecl → String
  | [] => ""
  | f :: fs =>
    if f.isArray then firstStringPrint fs
    else if mapType f.type = "char*" then
      "        printf(\" " ++ f.name ++ "=%s\", all[i]->" ++ f.name ++ ");\n"
    else firstStringPrint fs

/-- The demo body emitted for the first struct (c_generator.go:491-604). -/
def demoBlock (s : StructDecl) : String :=
  let tn := goToLower s.name
  "    // CREATE: Insert records\n"
  ++ "    printf(\"Creating records...\\n\");\n"
  ++ demoCreates s tn 0 demoSamples
  ++ "    // READ: Find by ID\n"
  ++ "    printf(\"\\nFinding record by ID...\\n\");\n"
  ++ "    " ++ s.name ++ "* found = " ++ s.name ++ "_find(1);\n"
  ++ "    if (found) \x7b\n"
  ++ "        printf(\"  Found " ++ s.name ++ " ID %lld: \", found->id);\n"
  ++ demoPrintLines s.fields
  ++ "        printf(\"\\n\");\n"
  ++ "    \x7d\n\n"
  ++ "    // READ: Get all records\n"
  ++ "    printf(\"\\nGetting all records...\\n\");\n"
  ++ "    int count = 0;\n"
  ++ "    " ++ s.name ++ "** all = " ++ s.name ++ "_all(&count);\n"
  ++ "    printf(\"  Found %d records:\\n\", count);\n"
  ++ "    for (int i = 0; i < count; i++) \x7b\n"
  ++ "        printf(\"    [%d] ID=%lld\", i+1, all[i]->id);\n"
  ++ firstStringPrint s.fields
  ++ "        printf(\"\\n\");\n"
  ++ "    \x7d\n\n"
  ++ "    // DELETE: Remove a record\n"
  ++ "    printf(\"\\nDeleting record with ID=2...\\n\");\n"
  ++ "    int deleted = " ++ s.name ++ "_delete(2);\n"
  ++ "    if (deleted) printf(\"  Record deleted successfully\\n\");\n\n"
  ++ "    // Verify deletion\n"
  ++ "    printf(\"\\nVerifying deletion...\\n\");\n"
  ++ "    all = " ++ s.name ++ "_all(&count);\n"
  ++ "    printf(\"  Remaining records: %d\\n\", count);\n\n"

/-- `generateMain` (c_generator.go:472-612): demo entry point for non-web
programs. -/
def generateMain (structs : List StructDecl) : String :=
  "int main(int argc, char *argv[]) \x7b\n"
  ++ "    // Initialize database\n"
  ++ "    int rc = sqlite3_open(\"app.db\", &db);\n"
  ++ "    if (rc != SQLITE_OK) \x7b\n"
  ++ "        fprintf(stderr, \"Cannot open database: %s\\n\", sqlite3_errmsg(db));\n"
  ++ "        return 1;\n"
  ++ "    \x7d\n"
  ++ "    printf(\"Database opened successfully\\n\\n\");\n\n"
  ++ initCalls structs
  ++ "\n    // ===== CRUD DEMO =====\n"
  ++ "    printf(\"\\n===== CRUD Operations Demo =====\\n\\n\");\n\n"
  ++ (match structs with
      | [] => ""
      | s :: _ => demoBlock s)
  ++ "    printf(\"\\n===== Demo Complete =====\\n\");\n\n"
  ++ "    // Close database\n"
  ++ "    sqlite3_close(db);\n"
  ++ "    return 0;\n"
  ++ "\x7d\n"

/-- The table-header lines of `generateDataListHTML`
(c_generator.go:697-704). -/
def dataListHeaderLines : List FieldDecl → String
  | [] => ""
  | f :: fs =>
    (if f.isArray then ""
     else "    offset += sprintf(html + offset, \"<th>" ++ goTitle f.name
       ++ "</th>\");\n")
    ++ dataListHeaderLines fs

/-- The table-cell lines of `generateDataListHTML`
(c_generator.go:715-735). -/
def dataListCellLines : List FieldDecl → String
  | [] => ""
  | f :: fs =>
    (if f.isArray then ""
     else
       let t := mapType f.type
       if t = "char*" then
         "        offset += sprintf(html + offset, \"<td>%s</td>\", items[i]->"
           ++ f.name ++ ");\n"
       else if t = "int" then
         if f.type = "bool" then
           "        offset += sprintf(html + offset, \"<td>%s</td>\", items[i]->"
             ++ f.name ++ " ? \"Yes\" : \"No\");\n"
         else
           "        offset += sprintf(html + offset, \"<td>%d</td>\", items[i]->"
             ++ f.name ++ ");\n"
       else if t = "int64_t" then
         "        offset += sprintf(html + offset, \"<td>%lld</td>\", items[i]->"
           ++ f.name ++ ");\n"
       else if t = "double" then
         "        offset += sprintf(html + offset, \"<td>%f</td>\", items[i]->"
           ++ f.name ++ ");\n"
       else "")
    ++ dataListCellLines fs

/-- `generateDataListHTML` (c_generator.go:689-742). -/
def generateDataListHTML (s : StructDecl) : String :=
  let tableName := getTableName s
  "    // DataList - Show all records\n"
  ++ "    offset += sprintf(html + offset, \"<h2>All Items</h2>\\n\");\n"
  ++ "    offset += sprintf(html + offset, \"<table class='table table-striped'>\\n\");\n"
  ++ "    offset += sprintf(html + offset, \"<thead><tr>\");\n"
  ++ dataListHeaderLines s.fields
  ++ "    offset += sprintf(html + offset, \"<th>Actions</th>\");\n"
  ++ "    offset += sprintf(html + offset, \"</tr></thead>\\n\");\n"
  ++ "    offset += sprintf(html + offset, \"<tbody>\\n\");\n\n"
  ++ "    int count = 0;\n"
  ++ "    " ++ s.name ++ "** items = " ++ s.name ++ "_all(&count);\n"
  ++ "    for (int i = 0; i < count; i++) \x7b\n"
  ++ "        offset += sprintf(html + offset, \"<tr>\");\n"
  ++ dataListCellLines s.fields
  ++ "        offset += sprintf(html + offset, \"<td><a href='/" ++ tableName
  ++ "/delete?id=%lld' class='btn btn-sm btn-danger'>Delete</a></td>\", items[i]->id);\n"
  ++ "        offset += sprintf(html + offset, \"</tr>\\n\");\n"
  ++ "    \x7d\n\n"
  ++ "    offset += sprintf(html + offset, \"</tbody></table>\\n\");\n\n"

/-- The control line of one form field (c_generator.go:774-785): same branch
structure as `inputKind`. -/
def formControlLine (f : FieldDecl) : String :=
  if mapType f.type == "char*" then
    if f.name == "description" then
      "    offset += sprintf(html + offset, \"<textarea name='" ++ f.name
        ++ "' class='form-control' rows='3' required></textarea>\\n\");\n"
    else
      "    offset += sprintf(html + offset, \"<input type='text' name='" ++ f.name
        ++ "' class='form-control' required>\\n\");\n"
  else if f.type == "bool" then
    "    offset += sprintf(html + offset, \"<input type='checkbox' name='" ++ f.name
      ++ "' class='form-check-input'>\\n\");\n"
  else
    "    offset += sprintf(html + offset, \"<input type='number' name='" ++ f.name
      ++ "' class='form-control' required>\\n\");\n"

/-- The per-field form blocks of `generateFormHTML`
(c_generator.go:752-788). -/
def formFieldBlocks : List FieldDecl → String
  | [] => ""
  | f :: fs =>
    (if f.isArray then ""
     else if isAutoForm f then ""
     else
       "    offset += sprintf(html + offset, \"<div class='mb-3'>\\n\");\n"
       ++ "    offset += sprintf(html + offset, \"<label class='form-label'>"
       ++ goTitle f.name ++ "</label>\\n\");\n"
       ++ formControlLine f
       ++ "    offset += sprintf(html + offset, \"</div>\\n\");\n")
    ++ formFieldBlocks fs

/-- `generateFormHTML` (c_generator.go:744-792). -/
def generateFormHTML (s : StructDecl) : String :=
  let tableName := getTableName s
  "    // Form - Add new record\n"
  ++ "    offset += sprintf(html + offset, \"<h2 class='mt-5'>Add New Item</h2>\\n\");\n"
  ++ "    offset += sprintf(html + offset, \"<form method='POST' action='/" ++ tableName
  ++ "/create'>\\n\");\n"
  ++ formFieldBlocks s.fields
  ++ "    offset += sprintf(html + offset, \"<button type='submit' class='btn btn-primary'>Add Item</button>\\n\");\n"
  ++ "    offset += sprintf(html + offset, \"</form>\\n\");\n\n"

/-- The HTML chrome constants of `generateHTMLFunctions`
(c_generator.go:627-647). -/
def htmlChromeConsts : String :=
  "\n// HTML generation functions\nconst char* html_header =\n"
  ++ "    \"<!DOCTYPE html>\\n\"\n"
  ++ "    \"<html lang='en'>\\n\"\n"
  ++ "    \"<head>\\n\"\n"
  ++ "    \"    <meta charset='UTF-8'>\\n\"\n"
  ++ "    \"    <meta name='viewport' content='width=device-width, initial-scale=1.0'>\\n\"\n"
  ++ "    \"    <title>%s</title>\\n\"\n"
  ++ "    \"    <link href='https://cdn.jsdelivr.net/npm/bootstrap@5.3.0/dist/css/bootstrap.min.css' rel='stylesheet'>\\n\"\n"
  ++ "    \"</head>\\n\"\n"
  ++ "    \"<body>\\n\"\n"
  ++ "    \"    <div class='container mt-5'>\\n\";\n\n"
  ++ "const char* html_footer =\n"
  ++ "    \"    </div>\\n\"\n"
  ++ "    \"    <script src='https://cdn.jsdelivr.net/npm/bootstrap@5.3.0/dist/js/bootstrap.bundle.min.js'></script>\\n\"\n"
  ++ "    \"</body>\\n\"\n"
  ++ "    \"</html>\\n\";\n\n"

/-- `generateHTMLFunctions` (c_generator.go:625-687): chrome constants plus a
render function for the first page over the first struct. -/
def generateHTMLFunctions (pages : List PageDecl) (structs : List StructDecl) : String :=
  htmlChromeConsts
  ++ (match pages with
      | [] => ""
      | page :: _ =>
        "char* render_" ++ goToLower page.name ++ "_page() \x7b\n"
        ++ "    char* html = (char*)malloc(65536);\n"
        ++ "    int offset = 0;\n\n"
        ++ "    offset += sprintf(html + offset, html_header, \"" ++ page.name ++ "\");\n"
        ++ "    offset += sprintf(html + offset, \"<h1 class='mb-4'>" ++ page.name
        ++ "</h1>\\n\");\n\n"
        ++ (match structs with
            | [] => ""
            | s :: _ => generateDataListHTML s)
        ++ (match structs with
            | [] => ""
            | s :: _ => generateFormHTML s)
        ++ "    offset += sprintf(html + offset, \"%s\", html_footer);\n"
        ++ "    return html;\n"
        ++ "\x7d\n\n")

/-- The field selection of `generateRouteHandler`'s POST branch
(c_generator.go:873-892): neither `autoincrement`/`primary`-decorated nor
array. -/
def routeFields : List FieldDecl → List FieldDecl
  | [] => []
  | f :: fs =>
    if !isAutoForm f && !f.isArray then f :: routeFields fs
    else routeFields fs

/-- The local-variable declaration lines for form extraction
(c_generator.go:883-891). -/
def routeDeclLines : List FieldDecl → String
  | [] => ""
  | f :: fs =>
    (let t := mapType f.type
     if t = "char*" then "            char* " ++ f.name ++ " = \"\";\n"
     else if f.type = "bool" then "            int " ++ f.name ++ " = 0;\n"
     else "            int64_t " ++ f.name ++ " = 0;\n")
    ++ routeDeclLines fs

/-- The form-pair matching lines (c_generator.go:894-907). -/
def routeMatchLines : List FieldDecl → String
  | [] => ""
  | f :: fs =>
    (let t := mapType f.type
     if t = "char*" then
       "                if (strcmp(fields[i], \"" ++ f.name ++ "\") == 0) "
         ++ f.name ++ " = strdup(values[i]);\n"
     else if f.type = "bool" then
       "                if (strcmp(fields[i], \"" ++ f.name ++ "\") == 0) "
         ++ f.name ++ " = 1;\n"
     else
       "                if (strcmp(fields[i], \"" ++ f.name ++ "\") == 0) "
         ++ f.name ++ " = atoll(values[i]);\n")
    ++ routeMatchLines fs

/-- The URL-decode and form-parse helpers emitted verbatim by
`generateRouteHandler` (c_generator.go:795-838). -/
def routeHelpersText : String :=
  "\n// URL decode helper\nvoid url_decode(char *dst, const char *src) \x7b\n"
  ++ "    char a, b;\n"
  ++ "    while (*src) \x7b\n"
  ++ "        if ((*src == '%') && ((a = src[1]) && (b = src[2])) && (isxdigit(a) && isxdigit(b))) \x7b\n"
  ++ "            if (a >= 'a') a -= 'a'-'A';\n"
  ++ "            if (a >= 'A') a -= ('A' - 10);\n"
  ++ "            else a -= '0';\n"
  ++ "            if (b >= 'a') b -= 'a'-'A';\n"
  ++ "            if (b >= 'A') b -= ('A' - 10);\n"
  ++ "            else b -= '0';\n"
  ++ "            *dst++ = 16*a+b;\n"
  ++ "            src+=3;\n"
  ++ "        \x7d else if (*src == '+') \x7b\n"
  ++ "            *dst++ = ' ';\n"
  ++ "            src++;\n"
  ++ "        \x7d else \x7b\n"
  ++ "            *dst++ = *src++;\n"
  ++ "        \x7d\n"
  ++ "    \x7d\n"
  ++ "    *dst++ = '\\0';\n"
  ++ "\x7d\n\n"
  ++ "// Parse form data\nvoid parse_form_data(const char* data, char fields[][256], char values[][256], int* count) \x7b\n"
  ++ "    char* datacopy = strdup(data);\n"
  ++ "    char* pair = strtok(datacopy, \"&\");\n"
  ++ "    *count = 0;\n\n"
  ++ "    while (pair != NULL && *count < 10) \x7b\n"
  ++ "        char* eq = strchr(pair, '=');\n"
  ++ "        if (eq) \x7b\n"
  ++ "            *eq = '\\0';\n"
  ++ "            url_decode(fields[*count], pair);\n"
  ++ "            url_decode(values[*count], eq + 1);\n"
  ++ "            (*count)++;\n"
  ++ "        \x7d\n"
  ++ "        pair = strtok(NULL, \"&\");\n"
  ++ "    \x7d\n"
  ++ "    free(datacopy);\n"
  ++ "\x7d\n\n"

/-- `generateRouteHandler` (c_generator.go:794-968). -/
def generateRouteHandler (structs : List StructDecl) (pages : List PageDecl) : String :=
  routeHelpersText
  ++ (match structs with
      | [] => ""
      | s :: _ =>
        let tableName := getTableName s
        "\n// HTTP request handler\nenum MHD_Result handle_request(void *cls, struct MHD_Connection *connection,\n"
        ++ "                   const char *url, const char *method,\n"
        ++ "                   const char *version, const char *upload_data,\n"
        ++ "                   size_t *upload_data_size, void **con_cls) \x7b\n\n"
        ++ "    struct MHD_Response *response;\n"
        ++ "    int ret;\n\n"
        ++ "    if (strcmp(url, \"/" ++ tableName
        ++ "/create\") == 0 && strcmp(method, \"POST\") == 0) \x7b\n"
        ++ "        // First call: set up\n"
        ++ "        if (*con_cls == NULL) \x7b\n"
        ++ "            *con_cls = (void*)1;\n"
        ++ "            return MHD_YES;\n"
        ++ "        \x7d\n\n"
        ++ "        // Process POST data\n"
        ++ "        if (*upload_data_size != 0) \x7b\n"
        ++ "            char fields[10][256];\n"
        ++ "            char values[10][256];\n"
        ++ "            int count;\n"
        ++ "            parse_form_data(upload_data, fields, values, &count);\n\n"
        ++ "            // Extract form values\n"
        ++ routeDeclLines (routeFields s.fields)
        ++ "            for (int i = 0; i < count; i++) \x7b\n"
        ++ routeMatchLines (routeFields s.fields)
        ++ "            \x7d\n\n"
        ++ "            " ++ s.name ++ "_create("
        ++ joinSep ", " ((routeFields s.fields).map (fun f => f.name))
        ++ ");\n\n"
        ++ "            *upload_data_size = 0;\n"
        ++ "            return MHD_YES;\n"
        ++ "        \x7d\n\n"
        ++ "        // Send redirect response\n"
        ++ "        const char* redirect = \"<html><head><meta http-equiv='refresh' content='0;url=/'></head></html>\";\n"
        ++ "        response = MHD_create_response_from_buffer(strlen(redirect), (void*)redirect, MHD_RESPMEM_PERSISTENT);\n"
        ++ "        ret = MHD_queue_response(connection, MHD_HTTP_SEE_OTHER, response);\n"
        ++ "        MHD_add_response_header(response, \"Location\", \"/\");\n"
        ++ "        MHD_destroy_response(response);\n"
        ++ "        return ret;\n"
        ++ "    \x7d\n\n"
        ++ "    if (strncmp(url, \"/" ++ tableName ++ "/delete\", "
        ++ toString ("/" ++ tableName ++ "/delete").length
        ++ ") == 0 && strcmp(method, \"GET\") == 0) \x7b\n"
        ++ "        const char* id_str = MHD_lookup_connection_value(connection, MHD_GET_ARGUMENT_KIND, \"id\");\n"
        ++ "        if (id_str) \x7b\n"
        ++ "            int64_t id = atoll(id_str);\n"
        ++ "            " ++ s.name ++ "_delete(id);\n"
        ++ "        \x7d\n"
        ++ "        const char* redirect = \"<html><head><meta http-equiv='refresh' content='0;url=/'></head></html>\";\n"
        ++ "        response = MHD_create_response_from_buffer(strlen(redirect), (void*)redirect, MHD_RESPMEM_PERSISTENT);\n"
        ++ "        ret = MHD_queue_response(connection, MHD_HTTP_OK, response);\n"
        ++ "        MHD_destroy_response(response);\n"
        ++ "        return ret;\n"
        ++ "    \x7d\n\n"
        ++ (match pages with
            | [] => ""
            | page :: _ =>
              "    if (strcmp(url, \"/\") == 0 && strcmp(method, \"GET\") == 0) \x7b\n"
              ++ "        char* html = render_" ++ goToLower page.name ++ "_page();\n"
              ++ "        response = MHD_create_response_from_buffer(strlen(html), (void*)html, MHD_RESPMEM_MUST_FREE);\n"
              ++ "        MHD_add_response_header(response, \"Content-Type\", \"text/html\");\n"
              ++ "        ret = MHD_queue_response(connection, MHD_HTTP_OK, response);\n"
              ++ "        MHD_destroy_response(response);\n"
              ++ "        return ret;\n"
              ++ "    \x7d\n\n")
        ++ "    // 404\n"
        ++ "    const char* not_found = \"<h1>404 Not Found</h1>\";\n"
        ++ "    response = MHD_create_response_from_buffer(strlen(not_found), (void*)not_found, MHD_RESPMEM_PERSISTENT);\n"
        ++ "    ret = MHD_queue_response(connection, MHD_HTTP_NOT_FOUND, response);\n"
        ++ "    MHD_destroy_response(response);\n"
        ++ "    return ret;\n"
        ++ "\x7d\n\n")

/-- `generateWebMain` (c_generator.go:970-1008). -/
def generateWebMain (structs : List StructDecl) : String :=
  "int main(int argc, char *argv[]) \x7b\n"
  ++ "    // Initialize database\n"
  ++ "    int rc = sqlite3_open(\"app.db\", &db);\n"
  ++ "    if (rc != SQLITE_OK) \x7b\n"
  ++ "        fprintf(stderr, \"Cannot open database: %s\\n\", sqlite3_errmsg(db));\n"
  ++ "        return 1;\n"
  ++ "    \x7d\n"
  ++ "    printf(\"Database opened successfully\\n\");\n\n"
  ++ initCalls structs
  ++ "\n    // Start HTTP server\n"
  ++ "    http_daemon = MHD_start_daemon(MHD_USE_SELECT_INTERNALLY, 8080, NULL, NULL,\n"
  ++ "                                    &handle_request, NULL, MHD_OPTION_END);\n"
  ++ "    if (http_daemon == NULL) \x7b\n"
  ++ "        fprintf(stderr, \"Failed to start HTTP server\\n\");\n"
  ++ "        return 1;\n"
  ++ "    \x7d\n\n"
  ++ "    printf(\"\\n========================================\\n\");\n"
  ++ "    printf(\"Server running on http://localhost:8080\\n\");\n"
  ++ "    printf(\"Press ENTER to stop the server...\\n\");\n"
  ++ "    printf(\"========================================\\n\\n\");\n\n"
  ++ "    getchar();\n\n"
  ++ "    // Stop HTTP server\n"
  ++ "    MHD_stop_daemon(http_daemon);\n\n"
  ++ "    // Close database\n"
  ++ "    sqlite3_close(db);\n"
  ++ "    printf(\"Server stopped\\n\");\n"
  ++ "    return 0;\n"
  ++ "\x7d\n"

/-- The statement classification of `Generate` (c_generator.go:31-42):
structs, pages and handlers in encounter order. -/
def collect : List Node → List StructDecl × List PageDecl × List HandlerDecl
  | [] => ([], [], [])
  | n :: ns =>
    let (ss, ps, hs) := collect ns
    match n with
    | .structDecl s => (s :: ss, ps, hs)
    | .pageDecl p => (ss, p :: ps, hs)
    | .handlerDecl h => (ss, ps, h :: hs)
    | .funcDecl _ => (ss, ps, hs)

/-- `Generate` (c_generator.go:27-66), run on a fresh generator as built by
`New` (c_generator.go:18-25): headers, struct definitions, CRUD, then web
server or demo main.  The web flag is set exactly when a page or handler was
collected. -/
def Generate (program : Program) : String :=
  let (structs, pages, handlers) := collect program.statements
  let hasWeb := !pages.isEmpty || !handlers.isEmpty
  generateHeaders hasWeb
  ++ String.join (structs.map generateStruct)
  ++ String.join (structs.map generateCRUD)
  ++ (if hasWeb then
        generateHTMLFunctions pages structs
        ++ generateRouteHandler structs pages
        ++ generateWebMain structs
      else generateMain structs)

/-- Whether a field carries a `required` decorator. -/
def hasRequiredDec (f : FieldDecl) : Bool :=
  f.decorators.any (fun d => d.name == "required")

/-- The create-path string interpolated by `generateFormHTML`
(c_generator.go:749) and `generateRouteHandler` (c_generator.go:857). -/
def createRoutePath (s : StructDecl) : String :=
  "/" ++ getTableName s ++ "/create"

/-- The delete-path string interpolated by `generateDataListHTML`
(c_generator.go:738) and `generateRouteHandler` (c_generator.go:933-934). -/
def deleteRoutePath (s : StructDecl) : String :=
  "/" ++ getTableName s ++ "/delete"

/-- Concatenation of a per-field string over a field list. -/
def concatMap (g : FieldDecl → String) : List FieldDecl → String
  | [] => ""
  | f :: fs => g f ++ concatMap g fs

/-! ## Example declarations used by witnesses and counterexamples -/

/-- The `@primary @autoincrement int id` field of the spec's Product
scenario. -/
def productIdField : FieldDecl :=
  ⟨"id", "int", false, [⟨"primary", [], []⟩, ⟨"autoincrement", [], []⟩]⟩

/-- The `@required string name` field of the Product scenario. -/
def productNameField : FieldDecl := ⟨"name", "string", false, [⟨"required", [], []⟩]⟩

/-- The `float price` field of the Product scenario. -/
def productPriceField : FieldDecl := ⟨"price", "float", false, []⟩

/-- The `int[] tags` field of end-to-end scenario 3. -/
def tagsArrayField : FieldDecl := ⟨"tags", "int", true, []⟩

/-- The Product struct of end-to-end scenario 1. -/
def productStruct : StructDecl :=
  ⟨"Product", [], [productIdField, productNameField, productPriceField]⟩

/-- Product extended with the `int[] tags` field of scenario 3. -/
def productTagsStruct : StructDecl :=
  ⟨"Product", [], [productIdField, productNameField, productPriceField, tagsArrayField]⟩

/-! ## Tokenizer (pkg/lexer/lexer.go, token types from pkg/lexer/token.go)

The Go lexer walks a byte string, caching the current character (`l.ch`, equal
to `l.input[l.position]`, or 0 past the end) with `l.readPosition` always one
past `l.position`.  The embedding keeps only the position and derives the
current character; the input is a `List Char` (faithful for ASCII input:
`unicode.IsLetter`/`unicode.IsDigit` agree with the ASCII tests below there).
`NextToken`'s comment branches re-enter `NextToken` after skipping a comment;
the embedding computes the length of the whole whitespace/comment run first
(`triviaLen`) and then scans a single token, which consumes the same
characters and produces the same token. -/

/-- `lexer.TokenType`; `ttStr` below gives the Go string value of each. -/
inductive TT where
  | eof | illegal | ident | intLit | floatLit | stringLit
  | kwStruct | kwIntType | kwFloatType | kwStringType | kwBoolType
  | kwDate | kwDatetime | kwIf | kwElse | kwFor | kwWhile | kwReturn
  | kwTrue | kwFalse | kwVoid | kwPage | kwSection | kwRow | kwColumn
  | kwForm | kwInput | kwButton | kwDataList | kwHandler | kwRequest
  | kwResponse
  | opAssign | opPlus | opMinus | opAsterisk | opSlash | opLt | opGt
  | opEq | opNotEq | opLte | opGte | opAnd | opOr | opNot
  | comma | semicolon | colon | lparen | rparen | lbrace | rbrace
  | lbracket | rbracket | atSign
deriving DecidableEq, Repr

/-- The Go string value of each `TokenType` constant (token.go). -/
def ttStr : TT → String
  | .eof => "EOF" | .illegal => "ILLEGAL" | .ident => "IDENT"
  | .intLit => "INT" | .floatLit => "FLOAT" | .stringLit => "STRING"
  | .kwStruct => "STRUCT" | .kwIntType => "INT_TYPE" | .kwFloatType => "FLOAT_TYPE"
  | .kwStringType => "STRING_TYPE" | .kwBoolType => "BOOL_TYPE"
  | .kwDate => "DATE" | .kwDatetime => "DATETIME" | .kwIf => "IF"
  | .kwElse => "ELSE" | .kwFor => "FOR" | .kwWhile => "WHILE"
  | .kwReturn => "RETURN" | .kwTrue => "TRUE" | .kwFalse => "FALSE"
  | .kwVoid => "VOID" | .kwPage => "PAGE" | .kwSection => "SECTION"
  | .kwRow => "ROW" | .kwColumn => "COLUMN" | .kwForm => "FORM"
  | .kwInput => "INPUT" | .kwButton => "BUTTON" | .kwDataList => "DATALIST"
  | .kwHandler => "HANDLER" | .kwRequest => "REQUEST" | .kwResponse => "RESPONSE"
  | .opAssign => "=" | .opPlus => "+" | .opMinus => "-" | .opAsterisk => "*"
  | .opSlash => "/" | .opLt => "<" | .opGt => ">" | .opEq => "=="
  | .opNotEq => "!=" | .opLte => "<=" | .opGte => ">=" | .opAnd => "&&"
  | .opOr => "||" | .opNot => "!"
  | .comma => "," | .semicolon => ";" | .colon => ":"
  | .lparen => "(" | .rparen => ")" | .lbrace => "\x7b" | .rbrace => "\x7d"
  | .lbracket => "[" | .rbracket => "]" | .atSign => "@"

/-- `lexer.Token`. -/
structure Token where
  type : TT
  literal : String
  line : Nat
  col : Nat
deriving DecidableEq, Repr

/-- The `keywords` table and `LookupIdent` (token.go). -/
def lookupIdent (s : String) : TT :=
  if s = "struct" then .kwStruct
  else if s = "int" then .kwIntType
  else if s = "float" then .kwFloatType
  else if s = "string" then .kwStringType
  else if s = "bool" then .kwBoolType
  else if s = "date" then .kwDate
  else if s = "datetime" then .kwDatetime
  else if s = "if" then .kwIf
  else if s = "else" then .kwElse
  else if s = "for" then .kwFor
  else if s = "while" then .kwWhile
  else if s = "return" then .kwReturn
  else if s = "true" then .kwTrue
  else if s = "false" then .kwFalse
  else if s = "void" then .kwVoid
  else if s = "Page" then .kwPage
  else if s = "Section" then .kwSection
  else if s = "Row" then .kwRow
  else if s = "Column" then .kwColumn
  else if s = "Form" then .kwForm
  else if s = "Input" then .kwInput
  else if s = "Button" then .kwButton
  else if s = "DataList" then .kwDataList
  else if s = "handler" then .kwHandler
  else if s = "Request" then .kwRequest
  else if s = "Response" then .kwResponse
  else .ident

/-- The lexer state: input characters, current position, line and column
(`readPosition` is always `pos + 1` in the Go code and is dropped). -/
structure LexState where
  input : List Char
  pos : Nat
  line : Nat
  col : Nat
deriving DecidableEq, Repr

/-- The character under examination (`l.ch`): `input[pos]`, or NUL past the
end. -/
def curCh (st : LexState) : Char := st.input.getD st.pos '\x00'

/-- `peekChar` (lexer.go:42). -/
def peekCh (st : LexState) : Char := st.input.getD (st.pos + 1) '\x00'

/-- `readChar` (lexer.go:26): advance one character, counting lines and
columns (the column is bumped first, then reset if the new character is a
newline). -/
def readChar (st : LexState) : LexState :=
  let p := st.pos + 1
  let c := st.input.getD p '\x00'
  ⟨st.input, p, if c = '\n' then st.line + 1 else st.line,
    if c = '\n' then 0 else st.col + 1⟩

/-- `New` (lexer.go:16): line 1, column 0, then one `readChar` from the
virtual start. -/
def mkLexer (input : String) : LexState :=
  let l := input.data
  let c := l.getD 0 '\x00'
  ⟨l, 0, if c = '\n' then 2 else 1, if c = '\n' then 0 else 1⟩

/-- `readChar` iterated. -/
def advanceN : LexState → Nat → LexState
  | st, 0 => st
  | st, n + 1 => advanceN (readChar st) n

/-- The unread input from the current position on. -/
def restOf (st : LexState) : List Char := st.input.drop st.pos

/-- `isLetter` (lexer.go:280), ASCII range of `unicode.IsLetter`. -/
def isLetter (c : Char) : Bool := c.isAlpha || c == '_'

/-- `isDigit` (lexer.go:284). -/
def isDigitCh (c : Char) : Bool := '0' ≤ c && c ≤ '9'

/-- The whitespace test of `skipWhitespace` (lexer.go:200). -/
def isWS (c : Char) : Bool := c == ' ' || c == '\t' || c == '\n' || c == '\r'

/-- The number of characters `skipBlockComment`'s scan loop consumes after
the opening characters: up to and including the first `*/`, stopping early at
end of input or a NUL character (lexer.go:217-234). -/
def blockEnd : List Char → Nat
  | [] => 0
  | '\x00' :: _ => 0
  | '*' :: '/' :: _ => 2
  | _ :: rest => 1 + blockEnd rest

/-- The number of literal characters `readString`'s loop consumes: up to the
closing quote (or end of input/NUL), where a backslash immediately followed
by a double quote is consumed as a two-character unit (lexer.go:264-278). -/
def strEnd : List Char → Nat
  | [] => 0
  | '"' :: _ => 0
  | '\x00' :: _ => 0
  | '\\' :: '"' :: rest => 2 + strEnd rest
  | _ :: rest => 1 + strEnd rest

/-- The number of leading whitespace/comment characters `NextToken` skips
before scanning a token: `skipWhitespace` runs plus line comments (`//` to
before the newline, lexer.go:206-215) plus block comments, iterated as by the
recursive `NextToken` calls of the comment branches (lexer.go:81-91). -/
def triviaLenF : Nat → List Char → Nat
  | 0, _ => 0
  | _, [] => 0
  | fuel + 1, c :: rest =>
    if isWS c then 1 + triviaLenF fuel rest
    else if c = '/' then
      match rest with
      | '/' :: r2 =>
        let k := (r2.takeWhile (fun c => !(c == '\n') && !(c == '\x00'))).length
        2 + k + triviaLenF fuel (r2.drop k)
      | '*' :: r2 =>
        let k := blockEnd r2
        2 + k + triviaLenF fuel (r2.drop k)
      | _ => 0
    else 0

/-- `triviaLenF` with enough fuel for its input (each step consumes at least
one character, so the input length suffices). -/
def triviaLen (l : List Char) : Nat := triviaLenF l.length l

/-- `readIdentifier` (lexer.go:236): letters, digits and underscores from the
current position; returns the literal and the state after it. -/
def readIdentifier (st : LexState) : String × LexState :=
  let chars := (restOf st).takeWhile (fun c => isLetter c || isDigitCh c || c == '_')
  (⟨chars⟩, advanceN st chars.length)

/-- `readNumber` (lexer.go:244): digits, then a fractional part only when a
dot is followed by another digit; returns literal, state and the float flag. -/
def readNumber (st : LexState) : String × LexState × Bool :=
  let d1 := (restOf st).takeWhile isDigitCh
  let st1 := advanceN st d1.length
  if curCh st1 = '.' && isDigitCh (peekCh st1) then
    let st2 := readChar st1
    let d2 := (restOf st2).takeWhile isDigitCh
    (⟨d1 ++ '.' :: d2⟩, advanceN st2 d2.length, true)
  else
    (⟨d1⟩, st1, false)

/-- `readString` (lexer.go:264): skip the opening quote, take the literal
span, skip the closing quote (one further `readChar` happens even at end of
input, as in Go). -/
def readString (st : LexState) : String × LexState :=
  let st1 := readChar st
  let n := strEnd (restOf st1)
  (⟨(restOf st1).take n⟩, readChar (advanceN st1 n))

/-- A single-character token at the scan state's position. -/
def tok1 (t : TT) (st : LexState) : Token := ⟨t, ⟨[curCh st]⟩, st.line, st.col⟩

/-- A two-character token (`==`, `!=`, `<=`, `>=`, `&&`, `||`). -/
def tok2 (t : TT) (st : LexState) : Token :=
  ⟨t, ⟨[curCh st, peekCh st]⟩, st.line, st.col⟩

/-- The switch body of `NextToken` (lexer.go:49-198) at a state already past
whitespace and comments (the comment branches are handled by `triviaLen` in
`nextToken` below; after trivia the `/` case can only be a lone slash). -/
def scanTok (s : LexState) : Token × LexState :=
  let c := curCh s
  if c = '@' then (tok1 .atSign s, readChar s)
  else if c = '=' then
    if peekCh s = '=' then (tok2 .opEq s, readChar (readChar s))
    else (tok1 .opAssign s, readChar s)
  else if c = '+' then (tok1 .opPlus s, readChar s)
  else if c = '-' then (tok1 .opMinus s, readChar s)
  else if c = '*' then (tok1 .opAsterisk s, readChar s)
  else if c = '/' then (tok1 .opSlash s, readChar s)
  else if c = '<' then
    if peekCh s = '=' then (tok2 .opLte s, readChar (readChar s))
    else (tok1 .opLt s, readChar s)
  else if c = '>' then
    if peekCh s = '=' then (tok2 .opGte s, readChar (readChar s))
    else (tok1 .opGt s, readChar s)
  else if c = '!' then
    if peekCh s = '=' then (tok2 .opNotEq s, readChar (readChar s))
    else (tok1 .opNot s, readChar s)
  else if c = '&' then
    if peekCh s = '&' then (tok2 .opAnd s, readChar (readChar s))
    else (tok1 .illegal s, readChar s)
  else if c = '|' then
    if peekCh s = '|' then (tok2 .opOr s, readChar (readChar s))
    else (tok1 .illegal s, readChar s)
  else if c = ',' then (tok1 .comma s, readChar s)
  else if c = ';' then (tok1 .semicolon s, readChar s)
  else if c = ':' then (tok1 .colon s, readChar s)
  else if c = '(' then (tok1 .lparen s, readChar s)
  else if c = ')' then (tok1 .rparen s, readChar s)
  else if c = '\x7b' then (tok1 .lbrace s, readChar s)
  else if c = '\x7d' then (tok1 .rbrace s, readChar s)
  else if c = '[' then (tok1 .lbracket s, readChar s)
  else if c = ']' then (tok1 .rbracket s, readChar s)
  else if c = '"' then
    let (lit, s') := readString s
    (⟨.stringLit, lit, s.line, s.col⟩, s')
  else if c = '\x00' then (⟨.eof, "", s.line, s.col⟩, readChar s)
  else if isLetter c then
    let (lit, s') := readIdentifier s
    (⟨lookupIdent lit, lit, s.line, s.col⟩, s')
  else if isDigitCh c then
    let (lit, s', isFloat) := readNumber s
    (⟨if isFloat then .floatLit else .intLit, lit, s.line, s.col⟩, s')
  else (tok1 .illegal s, readChar s)

/-- `NextToken` (lexer.go:49): skip whitespace and comments, then scan one
token. -/
def nextToken (st : LexState) : Token × LexState :=
  scanTok (advanceN st (triviaLen (restOf st)))

/-- The token stream produced by repeated `NextToken` calls, stopping at (and
including) the first end-of-input token; the fuel bounds the number of
tokens, and `input.length + 1` always suffices (see the termination
theorem). -/
def tokenizeFuel : Nat → LexState → List Token
  | 0, _ => []
  | fuel + 1, st =>
    let (t, st') := nextToken st
    if t.type = TT.eof then [t] else t :: tokenizeFuel fuel st'

/-- The whole token stream of an input text, final EOF token included. -/
def tokenize (input : String) : List Token :=
  tokenizeFuel (input.data.length + 1) (mkLexer input)

/-! ## Parser (pkg/parser/parser.go)

The Go parser holds `curToken`/`peekToken` pulled from the lexer; the
embedding materialises the finite token stream (final EOF token included) and
reads the current/peek token positionally, padding with an EOF token past the
end — which matches the Go lexer returning EOF tokens indefinitely.
`nextToken` becomes dropping the head.  Every parsing function returns its
result together with the remaining stream, bounded in length by the input
stream (the bound is carried in a subtype so that the enclosing loops are
well-founded). -/

/-- The padding token for an exhausted stream. -/
def eofTok : Token := ⟨TT.eof, "", 0, 0⟩

/-- Parser state: remaining tokens and accumulated diagnostics
(`Parser.errors`). -/
structure PState where
  toks : List Token
  errs : List String
deriving DecidableEq, Repr

/-- `p.curToken`. -/
def curT (st : PState) : Token := st.toks.headD eofTok

/-- `p.peekToken`. -/
def peekT (st : PState) : Token := (st.toks.drop 1).headD eofTok

/-- `p.nextToken()` (parser.go:30). -/
def advT (st : PState) : PState := ⟨st.toks.tail, st.errs⟩

/-- Append one diagnostic. -/
def addErr (st : PState) (e : String) : PState := ⟨st.toks, st.errs ++ [e]⟩

/-- `peekError` (parser.go:39): the message records the peek token's line and
column. -/
def peekErrMsg (st : PState) (t : TT) : String :=
  "Line " ++ toString (peekT st).line ++ ":" ++ toString (peekT st).col
  ++ ": expected next token to be " ++ ttStr t ++ ", got "
  ++ ttStr (peekT st).type ++ " instead"

/-- `expectPeek` (parser.go:53): advance on a peek match, else record a
diagnostic. -/
def expectPeek (st : PState) (t : TT) : Bool × PState :=
  if (peekT st).type = t then (true, advT st)
  else (false, addErr st (peekErrMsg st t))

/-- Go map assignment `decorator.KVArgs[arg] = value` on the association-list
model: overwrite an existing key, else append. -/
def kvUpsert : List (String × String) → String → String → List (String × String)
  | [], k, v => [(k, v)]
  | (k', v') :: rest, k, v =>
    if k' = k then (k, v) :: rest else (k', v') :: kvUpsert rest k v

/-- The decorator-argument loop of `parseDecorators` (parser.go:147-168):
consume literals (positional, or `key : value` on a colon), skipping commas;
any other token is skipped; stops at `)` or end of input.  Every loop below
takes fuel that its callers instantiate with more than the remaining stream
length; each iteration consumes at least one token, so the fuel never runs
out (the per-iteration consumption is proved with the termination
theorems). -/
def parseDecArgs : Nat → Decorator → PState → Decorator × PState
  | 0, dec, st => (dec, st)
  | fuel + 1, dec, st =>
    if ¬(curT st).type = TT.rparen ∧ ¬(curT st).type = TT.eof then
      if (curT st).type = TT.stringLit ∨ (curT st).type = TT.intLit
          ∨ (curT st).type = TT.floatLit ∨ (curT st).type = TT.ident then
        let arg := (curT st).literal
        let st1 := advT st
        if (curT st1).type = TT.colon then
          let st2 := advT st1
          let v := (curT st2).literal
          let st3 := advT st2
          let st4 := if (curT st3).type = TT.comma then advT st3 else st3
          parseDecArgs fuel ⟨dec.name, dec.args, kvUpsert dec.kvargs arg v⟩ st4
        else
          let st2 := if (curT st1).type = TT.comma then advT st1 else st1
          parseDecArgs fuel ⟨dec.name, dec.args ++ [arg], dec.kvargs⟩ st2
      else parseDecArgs fuel dec (advT st)
    else (dec, st)

/-- `parseDecorators` (parser.go:124-182): repeatedly consume `@name` with an
optional argument list; a non-identifier after `@` or a missing `)` ends the
run, keeping the decorators collected so far (a decorator whose `)` is
missing is itself dropped, with a diagnostic). -/
def parseDecoratorsF : Nat → PState → List Decorator × PState
  | 0, st => ([], st)
  | fuel + 1, st =>
    if (curT st).type = TT.atSign then
      let st1 := advT st
      if (curT st1).type = TT.ident then
        let st2 := advT st1
        if (curT st2).type = TT.lparen then
          let st3 := advT st2
          let (dec1, st4) := parseDecArgs (st3.toks.length + 1) ⟨(curT st1).literal, [], []⟩ st3
          if (curT st4).type = TT.rparen then
            let st5 := advT st4
            let (rest, st6) := parseDecoratorsF fuel st5
            (dec1 :: rest, st6)
          else
            ([], addErr st4 ("Line " ++ toString (curT st4).line ++ ":"
              ++ toString (curT st4).col ++ ": expected ')' after decorator arguments"))
        else
          let (rest, st3) := parseDecoratorsF fuel st2
          (⟨(curT st1).literal, [], []⟩ :: rest, st3)
      else ([], st1)
    else ([], st)

/-- `parseDecorators` with enough fuel for its stream. -/
def parseDecorators (st : PState) : List Decorator × PState :=
  parseDecoratorsF (st.toks.length + 1) st

/-- `isType` (parser.go:254). -/
def isTypeTok (t : TT) : Bool :=
  t = TT.kwIntType || t = TT.kwFloatType || t = TT.kwStringType
  || t = TT.kwBoolType || t = TT.kwDate || t = TT.kwDatetime || t = TT.ident

/-- The diagnostic of a missing field semicolon (parser.go:247), carrying the
current token's line and column. -/
def fieldSemiMsg (st : PState) : String :=
  "Line " ++ toString (curT st).line ++ ":" ++ toString (curT st).col
  ++ ": expected ';' after field declaration"

/-- The shared tail of `parseFieldDecl` (parser.go:237-251): field name, then
the mandatory semicolon (on success the semicolon is still the current
token). -/
def fieldTail (decs : List Decorator) (ftype : String) (isArr : Bool)
    (st : PState) : Option FieldDecl × PState :=
  if (curT st).type = TT.ident then
    let name := (curT st).literal
    let st1 := advT st
    if (curT st1).type = TT.semicolon then
      (some ⟨name, ftype, isArr, decs⟩, st1)
    else (none, addErr st1 (fieldSemiMsg st1))
  else (none, st)

/-- `parseFieldDecl` (parser.go:212-252): optional decorator run, type token,
optional `[]` suffix, then name and semicolon. -/
def parseFieldDecl (st : PState) : Option FieldDecl × PState :=
  let (decs, st1) :=
    if (curT st).type = TT.atSign then parseDecorators st else ([], st)
  if isTypeTok (curT st1).type then
    let ftype := (curT st1).literal
    let st2 := advT st1
    if (curT st2).type = TT.lbracket then
      let (ok, st3) := expectPeek st2 TT.rbracket
      if ok then fieldTail decs ftype true (advT st3)
      else (none, st3)
    else fieldTail decs ftype false st2
  else (none, st1)

/-- The field loop of `parseStructDecl` (parser.go:200-207): parse fields
until `}` or end of input, advancing one token after each attempt; failed
attempts contribute no field. -/
def structFieldsLoop : Nat → PState → List FieldDecl × PState
  | 0, st => ([], st)
  | fuel + 1, st =>
    if ¬(curT st).type = TT.rbrace ∧ ¬(curT st).type = TT.eof then
      let (optF, st1) := parseFieldDecl st
      let (rest, st3) := structFieldsLoop fuel (advT st1)
      ((match optF with | some f => f :: rest | none => rest), st3)
    else ([], st)

/-- `parseStructDecl` (parser.go:184-210): `struct` name `{` fields; the
decorators are attached by the caller. -/
def parseStructDecl (st : PState) : Option StructDecl × PState :=
  let (ok1, st1) := expectPeek st TT.ident
  if ok1 then
    let name := (curT st1).literal
    let (ok2, st2) := expectPeek st1 TT.lbrace
    if ok2 then
      let st3 := advT st2
      let (fields, st4) := structFieldsLoop (st3.toks.length + 1) st3
      (some ⟨name, [], fields⟩, st4)
    else (none, st2)
  else (none, st1)

/-- The body-skipping loop of `parsePageDecl` (parser.go:279-282): advance to
the closing `}` (or end of input) without structural interpretation. -/
def skipBody : Nat → PState → PState
  | 0, st => st
  | fuel + 1, st =>
    if ¬(curT st).type = TT.rbrace ∧ ¬(curT st).type = TT.eof then
      skipBody fuel (advT st)
    else st

/-- `parsePageDecl` (parser.go:260-285): name and brace-delimited body, the
body consumed without interpretation; decorators attached by the caller. -/
def parsePageDecl (st : PState) : Option PageDecl × PState :=
  let (ok1, st1) := expectPeek st TT.ident
  if ok1 then
    let name := (curT st1).literal
    let (ok2, st2) := expectPeek st1 TT.lbrace
    if ok2 then
      let st3 := advT st2
      (some ⟨name, []⟩, skipBody (st3.toks.length + 1) st3)
    else (none, st2)
  else (none, st1)

/-- The balanced-brace skip loop shared by `parseFunctionDecl`
(parser.go:303-314) and `parseHandlerDecl` (parser.go:370-382): count braces
from the current token, stopping on the `}` that brings the count to zero
(left as the current token) or at end of input. -/
def braceSkipLoop : Nat → PState → Int → PState
  | 0, st, _ => st
  | fuel + 1, st, depth =>
    if ¬(curT st).type = TT.eof then
      if (curT st).type = TT.lbrace then braceSkipLoop fuel (advT st) (depth + 1)
      else if (curT st).type = TT.rbrace then
        if depth - 1 = 0 then st
        else braceSkipLoop fuel (advT st) (depth - 1)
      else braceSkipLoop fuel (advT st) depth
    else st

/-- `parseFunctionDecl` (parser.go:287-317): return type, name, then the body
skipped as a balanced-brace span (the scan starts at the name token, as in
the Go code, and runs to end of input if no closing brace balances). -/
def parseFunctionDecl (st : PState) : Option FunctionDecl × PState :=
  let rt := (curT st).literal
  let st1 := advT st
  if (curT st1).type = TT.ident then
    let name := (curT st1).literal
    (some ⟨name, rt⟩, braceSkipLoop (st1.toks.length + 1) st1 0)
  else (none, st1)

/-- The parameter loop of `parseHandlerDecl` (parser.go:343-360): `type name`
pairs, commas skipped; a missing name simply skips the pair's type token. -/
def handlerParamsLoop : Nat → PState → List Parameter → List Parameter × PState
  | 0, st, acc => (acc, st)
  | fuel + 1, st, acc =>
    if ¬(curT st).type = TT.rparen ∧ ¬(curT st).type = TT.eof then
      let ptype := (curT st).literal
      let st1 := advT st
      if (curT st1).type = TT.ident then
        let pname := (curT st1).literal
        let st2 := advT st1
        let st3 := if (curT st2).type = TT.comma then advT st2 else st2
        handlerParamsLoop fuel st3 (acc ++ [⟨pname, ptype⟩])
      else
        let st2 := if (curT st1).type = TT.comma then advT st1 else st1
        handlerParamsLoop fuel st2 acc
    else (acc, st)

/-- `parseHandlerDecl` (parser.go:319-385): `handler` name `(params)`, then
an optional balanced-brace body; decorators attached by the caller. -/
def parseHandlerDecl (st : PState) : Option HandlerDecl × PState :=
  let st1 := advT st
  if (curT st1).type = TT.ident then
    let name := (curT st1).literal
    let st2 := advT st1
    if (curT st2).type = TT.lparen then
      let st3 := advT st2
      let (params, st4) := handlerParamsLoop (st3.toks.length + 1) st3 []
      if (curT st4).type = TT.rparen then
        let st5 := advT st4
        if (curT st5).type = TT.lbrace then
          (some ⟨name, params, []⟩, braceSkipLoop (st5.toks.length + 1) st5 0)
        else (some ⟨name, params, []⟩, st5)
      else (none, st4)
    else (none, st2)
  else (none, st1)

/-- `parseDecoratedStatement` (parser.go:96-122): a decorator run, then a
struct/page/handler whose decorators are set to the collected run; anything
else discards the decorators and yields no node. -/
def parseDecoratedStatement (st : PState) : Option Node × PState :=
  let (decs, st1) := parseDecorators st
  if (curT st1).type = TT.kwStruct then
    let (o, st2) := parseStructDecl st1
    ((match o with
      | some s => some (Node.structDecl ⟨s.name, decs, s.fields⟩)
      | none => none), st2)
  else if (curT st1).type = TT.kwPage then
    let (o, st2) := parsePageDecl st1
    ((match o with
      | some p => some (Node.pageDecl ⟨p.name, decs⟩)
      | none => none), st2)
  else if (curT st1).type = TT.kwHandler then
    let (o, st2) := parseHandlerDecl st1
    ((match o with
      | some hd => some (Node.handlerDecl ⟨hd.name, hd.parameters, decs⟩)
      | none => none), st2)
  else (none, st1)

/-- `parseStatement` (parser.go:79-94): dispatch on the current token kind;
unrecognised tokens yield no node and no diagnostic. -/
def parseStatement (st : PState) : Option Node × PState :=
  if (curT st).type = TT.atSign then parseDecoratedStatement st
  else if (curT st).type = TT.kwStruct then
    let (o, st1) := parseStructDecl st
    (o.map Node.structDecl, st1)
  else if (curT st).type = TT.kwPage then
    let (o, st1) := parsePageDecl st
    (o.map Node.pageDecl, st1)
  else if (curT st).type = TT.kwHandler then
    let (o, st1) := parseHandlerDecl st
    (o.map Node.handlerDecl, st1)
  else if (curT st).type = TT.kwIntType ∨ (curT st).type = TT.kwFloatType
      ∨ (curT st).type = TT.kwStringType ∨ (curT st).type = TT.kwBoolType
      ∨ (curT st).type = TT.kwVoid then
    let (o, st1) := parseFunctionDecl st
    (o.map Node.funcDecl, st1)
  else (none, st)

/-- `ParseProgram`'s loop (parser.go:68-74): parse one statement, append a
produced node, advance one token, until end of input. -/
def parseProgramLoop : Nat → PState → List Node → List Node × PState
  | 0, st, acc => (acc, st)
  | fuel + 1, st, acc =>
    if ¬(curT st).type = TT.eof then
      let (optN, st1) := parseStatement st
      parseProgramLoop fuel (advT st1) (acc ++ optN.toList)
    else (acc, st)

/-- `ParseProgram` (parser.go:64-77) over a materialised token stream,
returning the program and the diagnostics. -/
def parseProgram (toks : List Token) : Program × List String :=
  let (stmts, stF) := parseProgramLoop (toks.length + 1) ⟨toks, []⟩ []
  (⟨stmts⟩, stF.errs)

/-- The whole front end: tokenize and parse an input text. -/
def parseZe (input : String) : Program × List String :=
  parseProgram (tokenize input)

/-! ## Table-name derivation: spec-side definition and well-quotedness -/

/-- No double-quote character occurs in the list. -/
def quoteFreeB (l : List Char) : Bool := l.all (fun c => !(c == '"'))

/-- An argument is well-quoted when it has no double quotes at all, or is one
double-quoted span with a quote-free core; on such arguments Go's
`strings.Trim(arg, "\"")` and stripping one surrounding quote pair agree. -/
def wellQuotedArg (a : String) : Bool :=
  quoteFreeB a.data ||
  (match a.data with
   | '"' :: rest =>
     (match rest.getLast? with
      | some '"' => quoteFreeB rest.dropLast
      | _ => false)
   | _ => false)

/-- The first argument of the first `table` decorator with at least one
argument (the scan of `getTableName`, without the trim). -/
def firstTableArg : List Decorator → Option String
  | [] => none
  | d :: ds =>
    if d.name = "table" then
      match d.args with
      | a :: _ => some a
      | [] => firstTableArg ds
    else firstTableArg ds

/-- One surrounding pair of double quotes removed, if present. -/
def stripSurroundingQuotes (s : String) : String :=
  match s.data with
  | '"' :: rest =>
    (match rest.getLast? with
     | some '"' => ⟨rest.dropLast⟩
     | _ => s)
  | _ => s

/-- Modelled from the spec's words for comparison with `getTableName`:
"`table` decorator argument if present (quotes stripped), else
lowercase(struct name) + \"s\"" (spec §8; §4.3 step 4). -/
def tableNameSpec (s : StructDecl) : String :=
  match firstTableArg s.decorators with
  | some a => stripSurroundingQuotes a
  | none => goToLower s.name ++ "s"

/-- The struct's name and `table` arguments are quote-normal: the lowercased
name has no quote characters and every `table` decorator's first argument is
well-quoted. -/
def structQuotesOK (s : StructDecl) : Bool :=
  quoteFreeB (goToLower s.name).data &&
  s.decorators.all (fun d =>
    !(d.name == "table") ||
    (match d.args with
     | [] => true
     | a :: _ => wellQuotedArg a))

/-- The Todo struct of the repository's generator test, `table` decorator
argument carrying explicit quotes. -/
def todoStruct : StructDecl :=
  ⟨"Todo",
   [⟨"storage", ["sqlite"], []⟩, ⟨"table", ["\"todos\""], []⟩],
   [⟨"id", "int", false, [⟨"primary", [], []⟩, ⟨"autoincrement", [], []⟩]⟩,
    ⟨"title", "string", false, [⟨"required", [], []⟩]⟩,
    ⟨"completed", "bool", false, []⟩]⟩

/-! ## Erasure of the unordered (keyword-argument) component

The generator reads decorator names and positional arguments only; erasing
every `kvargs` map leaves its output unchanged, which is the formal content
of "no map iteration affects emitted order". -/

/-- Drop a decorator's keyword-argument map. -/
def eraseDec (d : Decorator) : Decorator := ⟨d.name, d.args, []⟩

/-- Erase the maps in a field's decorators. -/
def eraseField (f : FieldDecl) : FieldDecl :=
  ⟨f.name, f.type, f.isArray, f.decorators.map eraseDec⟩

/-- Erase the maps in a struct. -/
def eraseStruct (s : StructDecl) : StructDecl :=
  ⟨s.name, s.decorators.map eraseDec, s.fields.map eraseField⟩

/-- Erase the maps in a page. -/
def erasePage (p : PageDecl) : PageDecl := ⟨p.name, p.decorators.map eraseDec⟩

/-- Erase the maps in a handler. -/
def eraseHandler (h : HandlerDecl) : HandlerDecl :=
  ⟨h.name, h.parameters, h.decorators.map eraseDec⟩

/-- Erase the maps in a top-level node. -/
def eraseNode : Node → Node
  | .structDecl s => .structDecl (eraseStruct s)
  | .pageDecl p => .pageDecl (erasePage p)
  | .handlerDecl h => .handlerDecl (eraseHandler h)
  | .funcDecl f => .funcDecl f

/-- Erase the maps in a whole program. -/
def eraseProgram (p : Program) : Program := ⟨p.statements.map eraseNode⟩

/-- Two programs identical except for a keyword-argument map (claim C8's
witness pair). -/
def kvProgA : Program :=
  ⟨[Node.structDecl ⟨"Todo", [⟨"table", ["todos"], [("cache", "on")]⟩],
     [⟨"id", "int", false, [⟨"primary", [], []⟩]⟩]⟩]⟩

/-- `kvProgA` with a different keyword-argument map. -/
def kvProgB : Program :=
  ⟨[Node.structDecl ⟨"Todo", [⟨"table", ["todos"], []⟩],
     [⟨"id", "int", false, [⟨"primary", [], []⟩]⟩]⟩]⟩

/-! ## String-literal bodies -/

/-- The well-formed interiors of a string literal for claim C9: sequences of
ordinary characters (no quote, backslash or NUL) and escaped quotes `\"`. -/
inductive StrBody : List Char → Prop where
  | nil : StrBody []
  | esc (b : List Char) : StrBody b → StrBody ('\\' :: '"' :: b)
  | chr (c : Char) (b : List Char) :
      c ≠ '"' → c ≠ '\\' → c ≠ '\x00' → StrBody b → StrBody (c :: b)

/-! ## Parser state discipline -/

/-- The state discipline every parsing step obeys: the remaining token stream
only shrinks (the cursor never moves backwards) and diagnostics are only
appended, never dropped or raised as failures. -/
def stepOK (a b : PState) : Prop :=
  b.toks.length ≤ a.toks.length ∧ ∃ es, b.errs = a.errs ++ es

/-! ## Supporting lemmas: field selections are declaration-order filters -/

theorem nonArrayFields_eq_filter (fs : List FieldDecl) :
    nonArrayFields fs = fs.filter (fun f => !f.isArray) := by
  induction fs with
  | nil => rfl
  | cons f fs ih =>
    by_cases h : f.isArray <;> simp [nonArrayFields, h, ih]

theorem createFields_eq_filter (fs : List FieldDecl) :
    createFields fs = fs.filter (fun f => !f.isArray && !isAutoCreate f) := by
  induction fs with
  | nil => rfl
  | cons f fs ih =>
    by_cases h1 : f.isArray
    · simp [createFields, h1, ih]
    · by_cases h2 : isAutoCreate f <;> simp [createFields, h1, h2, ih]

theorem formFields_eq_filter (fs : List FieldDecl) :
    formFields fs = fs.filter (fun f => !f.isArray && !isAutoForm f) := by
  induction fs with
  | nil => rfl
  | cons f fs ih =>
    by_cases h1 : f.isArray
    · simp [formFields, h1, ih]
    · by_cases h2 : isAutoForm f <;> simp [formFields, h1, h2, ih]

theorem routeFields_eq_filter (fs : List FieldDecl) :
    routeFields fs = fs.filter (fun f => !isAutoForm f && !f.isArray) := by
  induction fs with
  | nil => rfl
  | cons f fs ih =>
    by_cases h1 : f.isArray
    · simp [routeFields, h1, ih]
    · by_cases h2 : isAutoForm f <;> simp [routeFields, h1, h2, ih]

theorem mainDemoFields_eq_filter (fs : List FieldDecl) :
    mainDemoFields fs = fs.filter (fun f => !isAutoCreate f && !f.isArray) := by
  induction fs with
  | nil => rfl
  | cons f fs ih =>
    by_cases h1 : f.isArray
    · simp [mainDemoFields, h1, ih]
    · by_cases h2 : isAutoCreate f <;> simp [mainDemoFields, h1, h2, ih]

theorem dataListHeaderLines_concatMap (fs : List FieldDecl) :
    dataListHeaderLines fs = concatMap
      (fun f => "    offset += sprintf(html + offset, \"<th>" ++ goTitle f.name
        ++ "</th>\");\n")
      (nonArrayFields fs) := by
  induction fs with
  | nil => rfl
  | cons f fs ih =>
    by_cases h : f.isArray <;>
      simp [dataListHeaderLines, nonArrayFields, concatMap, h, ih]

theorem formFieldBlocks_concatMap (fs : List FieldDecl) :
    formFieldBlocks fs = concatMap
      (fun f =>
        "    offset += sprintf(html + offset, \"<div class='mb-3'>\\n\");\n"
        ++ "    offset += sprintf(html + offset, \"<label class='form-label'>"
        ++ goTitle f.name ++ "</label>\\n\");\n"
        ++ formControlLine f
        ++ "    offset += sprintf(html + offset, \"</div>\\n\");\n")
      (formFields fs) := by
  induction fs with
  | nil => rfl
  | cons f fs ih =>
    by_cases h1 : f.isArray
    · simp [formFieldBlocks, formFields, concatMap, h1, ih]
    · by_cases h2 : isAutoForm f <;>
        simp [formFieldBlocks, formFields, concatMap, h1, h2, ih]

theorem isAutoincDec_isAutoCreate (f : FieldDecl) (h : isAutoincDec f = true) :
    isAutoCreate f = true := by
  simp only [isAutoincDec, List.any_eq_true] at h
  obtain ⟨d, hd, hname⟩ := h
  simp only [isAutoCreate, List.any_eq_true]
  exact ⟨d, hd, by simp_all⟩

/-- A field named "description" of non-`char*`-mapped type (claim C4's
counterexample field). -/
def descIntField : FieldDecl := ⟨"description", "int", false, []⟩

/-- A bool field carrying a `required` decorator (claim C5's counterexample
field). -/
def flagBoolField : FieldDecl := ⟨"flag", "bool", false, [⟨"required", [], []⟩]⟩

/-- A field named "id" decorated `autoincrement` but not `primary` (claim
C10's distinguished case). -/
def plainIdField : FieldDecl := ⟨"id", "int", false, [⟨"autoincrement", [], []⟩]⟩

/-! ## Claim theorems -/

/-- C1, counterexample: the claim also asserts that non-array fields appear
in *all* persistence and UI artifacts; the non-array field
`@primary @autoincrement int id` of the Product struct is absent from the
create parameter list and from the generated form. -/
theorem c1_counterexample :
    productIdField ∈ productStruct.fields ∧ productIdField.isArray = false
  ∧ productIdField ∉ createFields productStruct.fields
  ∧ productIdField ∉ formFields productStruct.fields := by decide

/-- C1, amended: array fields are excluded from every artifact's field list
(schema, create parameters/insert, find/list column reads, HTML table
columns, form fields, route extraction); each artifact's list preserves
declaration order (it is a sublist of the declaration list); a non-array
field appears in the schema/read/table list, and in the create and form
lists provided it is not excluded by that artifact's auto-field rule. -/
theorem c1_array_exclusion (s : StructDecl) :
    (∀ f, f ∈ s.fields → f.isArray = true →
        f ∉ nonArrayFields s.fields ∧ f ∉ createFields s.fields
      ∧ f ∉ formFields s.fields ∧ f ∉ routeFields s.fields)
  ∧ List.Sublist (nonArrayFields s.fields) s.fields
  ∧ List.Sublist (createFields s.fields) s.fields
  ∧ List.Sublist (formFields s.fields) s.fields
  ∧ List.Sublist (routeFields s.fields) s.fields
  ∧ (∀ f, isAutoCreate f = true → f ∉ createFields s.fields)
  ∧ (∀ f, isAutoForm f = true → f ∉ formFields s.fields)
  ∧ (∀ f, f ∈ s.fields → f.isArray = false →
        f ∈ nonArrayFields s.fields
      ∧ (isAutoCreate f = false → f ∈ createFields s.fields)
      ∧ (isAutoForm f = false → f ∈ formFields s.fields)) := by
  refine ⟨?_, ?_, ?_, ?_, ?_, ?_, ?_, ?_⟩
  · intro f hmem harr
    rw [nonArrayFields_eq_filter, createFields_eq_filter, formFields_eq_filter,
      routeFields_eq_filter]
    simp [List.mem_filter, harr]
  · rw [nonArrayFields_eq_filter]; exact List.filter_sublist _
  · rw [createFields_eq_filter]; exact List.filter_sublist _
  · rw [formFields_eq_filter]; exact List.filter_sublist _
  · rw [routeFields_eq_filter]; exact List.filter_sublist _
  · intro f hauto
    rw [createFields_eq_filter]
    simp [List.mem_filter, hauto]
  · intro f hauto
    rw [formFields_eq_filter]
    simp [List.mem_filter, hauto]
  · intro f hmem harr
    rw [nonArrayFields_eq_filter, createFields_eq_filter, formFields_eq_filter]
    refine ⟨?_, ?_, ?_⟩
    · simp [List.mem_filter, hmem, harr]
    · intro hac; simp [List.mem_filter, hmem, harr, hac]
    · intro haf; simp [List.mem_filter, hmem, harr, haf]

/-- C1, witness: concrete instantiation on the Product struct extended with
`int[] tags` (scenario 3): the array field is absent from all artifacts, the
autoincrement/primary `id` field is excluded from the create and form lists,
and `@required string name` is in the form list. -/
theorem c1_array_exclusion_witness :
    tagsArrayField ∉ nonArrayFields productTagsStruct.fields
  ∧ tagsArrayField ∉ createFields productTagsStruct.fields
  ∧ tagsArrayField ∉ formFields productTagsStruct.fields
  ∧ productIdField ∉ createFields productTagsStruct.fields
  ∧ productIdField ∉ formFields productTagsStruct.fields
  ∧ productNameField ∈ formFields productTagsStruct.fields :=
  ⟨((c1_array_exclusion productTagsStruct).1 tagsArrayField (by decide)
      (by decide)).1,
   ((c1_array_exclusion productTagsStruct).1 tagsArrayField (by decide)
      (by decide)).2.1,
   ((c1_array_exclusion productTagsStruct).1 tagsArrayField (by decide)
      (by decide)).2.2.1,
   (c1_array_exclusion productTagsStruct).2.2.2.2.2.1 productIdField (by decide),
   (c1_array_exclusion productTagsStruct).2.2.2.2.2.2.1 productIdField (by decide),
   ((c1_array_exclusion productTagsStruct).2.2.2.2.2.2.2 productNameField
      (by decide) (by decide)).2.2 (by decide)⟩

/-- C3: the create function's parameters and insert columns are exactly the
non-array fields without an `autoincrement`/`timestamp` decorator, in
declaration order; a primary autoincrement field is populated from the
engine's last-insert row id and is absent from the parameter list. -/
theorem c3_create_signature (s : StructDecl) :
    createParams s = (s.fields.filter (fun f => !f.isArray && !isAutoCreate f)).map
        (fun f => mapType f.type ++ " " ++ f.name)
  ∧ insertColumnNames s = (s.fields.filter (fun f => !f.isArray && !isAutoCreate f)).map
        (fun f => f.name)
  ∧ ∀ f, f ∈ s.fields → isPrimaryDec f = true → isAutoincDec f = true →
      assignSrc f = AssignSrc.lastInsertId ∧ f ∉ createFields s.fields := by
  refine ⟨?_, ?_, ?_⟩
  · rw [createParams, createFields_eq_filter]
  · rw [insertColumnNames, createFields_eq_filter]
  · intro f hmem hp ha
    constructor
    · simp [assignSrc, hp, ha]
    · rw [createFields_eq_filter]
      simp [List.mem_filter, isAutoincDec_isAutoCreate f ha]

/-- C3, witness: on the Product struct the create function takes
`(char* name, double price)` only, inserts `(name, price)`, and assigns `id`
from the last-insert row id. -/
theorem c3_create_signature_witness :
    createParams productStruct = ["char* name", "double price"]
  ∧ insertColumnNames productStruct = ["name", "price"]
  ∧ assignSrc productIdField = AssignSrc.lastInsertId
  ∧ productIdField ∉ createFields productStruct.fields :=
  ⟨by decide, by decide,
   ((c3_create_signature productStruct).2.2 productIdField (by decide) (by decide)
      (by decide)).1,
   ((c3_create_signature productStruct).2.2 productIdField (by decide) (by decide)
      (by decide)).2⟩

/-- C4, counterexample: a field literally named "description" of type `int`
renders as a numeric input, not a text area (the description rule only fires
inside the `char*` branch); a `float` field renders as a numeric input, not
single-line text. -/
theorem c4_counterexample :
    descIntField.name = "description" ∧ inputKind descIntField = InputKind.number
  ∧ inputKind descIntField ≠ InputKind.textarea
  ∧ productPriceField.type = "float" ∧ inputKind productPriceField = InputKind.number
  ∧ inputKind productPriceField ≠ InputKind.text := by decide

/-- C4, amended: a `char*`-mapped field (string/date/datetime) named
"description" renders as a text area, any other `char*`-mapped field as
single-line text, a bool-typed field as a checkbox, and every remaining field
(including int and float) as a numeric input. -/
theorem c4_input_kind (f : FieldDecl) :
    (inputKind f = InputKind.textarea ↔ mapType f.type = "char*" ∧ f.name = "description")
  ∧ (inputKind f = InputKind.text ↔ mapType f.type = "char*" ∧ f.name ≠ "description")
  ∧ (inputKind f = InputKind.checkbox ↔ mapType f.type ≠ "char*" ∧ f.type = "bool")
  ∧ (inputKind f = InputKind.number ↔ mapType f.type ≠ "char*" ∧ f.type ≠ "bool") := by
  by_cases h1 : mapType f.type = "char*"
  · by_cases h2 : f.name = "description" <;> simp [inputKind, h1, h2]
  · by_cases h3 : f.type = "bool"
    · simp [inputKind, mapType, h1, h3]
    · simp [inputKind, h1, h3]

/-- C5, counterexample: the `required` attribute does not track the
`required` decorator: an undecorated float field's numeric input carries it,
while a `required`-decorated bool field's checkbox does not. -/
theorem c5_counterexample :
    hasRequiredDec productPriceField = false
  ∧ controlHasRequiredAttr productPriceField = true
  ∧ hasRequiredDec flagBoolField = true
  ∧ controlHasRequiredAttr flagBoolField = false := by decide

/-- C5, amended: the emitted control carries the HTML `required` attribute
iff the control is not a checkbox; the decorators of the field (and hence the
`required` decorator) have no influence on it. -/
theorem c5_required_attr (f : FieldDecl) :
    (controlHasRequiredAttr f = true ↔ inputKind f ≠ InputKind.checkbox)
  ∧ (∀ ds, controlHasRequiredAttr ⟨f.name, f.type, f.isArray, ds⟩
      = controlHasRequiredAttr f) := by
  constructor
  · by_cases h1 : mapType f.type = "char*"
    · simp only [controlHasRequiredAttr, inputKind, h1]
      constructor
      · intro _
        simp only [beq_self_eq_true, if_true]
        split <;> simp
      · intro _
        simp
    · by_cases h3 : f.type = "bool"
      · simp [controlHasRequiredAttr, inputKind, mapType, h1, h3]
      · simp [controlHasRequiredAttr, inputKind, h1, h3]
  · intro ds; rfl

/-- C4, witness: the amended characterisation at a concrete field — the
int-typed field named "description" renders as a numeric input. -/
theorem c4_input_kind_witness :
    inputKind descIntField = InputKind.number :=
  (c4_input_kind descIntField).2.2.2.mpr (by decide)

/-- C5, witness: the amended characterisation at a concrete field — the
undecorated float field's control (not a checkbox) carries the attribute. -/
theorem c5_required_attr_witness :
    controlHasRequiredAttr productPriceField = true :=
  (c5_required_attr productPriceField).1.mpr (by decide)

/-- C10: a non-array field is assigned the engine's last-insert row id
exactly when it is `autoincrement`-decorated and additionally primary or
literally named "id"; all other fields are copied from the parameter of the
same name, with `char*`-mapped (in particular string-typed) fields copied via
`strdup`. -/
theorem c10_assign_rule (f : FieldDecl) :
    (assignSrc f = AssignSrc.lastInsertId ↔
      isAutoincDec f = true ∧ (isPrimaryDec f = true ∨ f.name = "id"))
  ∧ (assignSrc f ≠ AssignSrc.lastInsertId →
      assignSrc f = AssignSrc.fromParam (mapType f.type == "char*"))
  ∧ (f.type = "string" → assignSrc f ≠ AssignSrc.lastInsertId →
      assignSrc f = AssignSrc.fromParam true) := by
  refine ⟨?_, ?_, ?_⟩
  · by_cases ha : isAutoincDec f
    · by_cases hp : isPrimaryDec f
      · simp [assignSrc, ha, hp]
      · by_cases hid : f.name = "id" <;> simp [assignSrc, ha, hp, hid]
    · by_cases hp : isPrimaryDec f <;>
        by_cases hid : f.name = "id" <;> simp [assignSrc, ha, hp, hid]
  · intro h
    by_cases hc : ((f.name == "id" || isPrimaryDec f) && isAutoincDec f) = true
    · exact absurd (by simp [assignSrc, hc]) h
    · simp [assignSrc, hc]
  · intro hstr h
    by_cases hc : ((f.name == "id" || isPrimaryDec f) && isAutoincDec f) = true
    · exact absurd (by simp [assignSrc, hc]) h
    · simp [assignSrc, hc, mapType, hstr]

/-- C10, witness: `id` decorated `autoincrement` but not `primary` still
receives the engine row id; the string field `name` is duplicated from its
parameter. -/
theorem c10_assign_rule_witness :
    assignSrc plainIdField = AssignSrc.lastInsertId
  ∧ assignSrc productNameField = AssignSrc.fromParam true :=
  ⟨(c10_assign_rule plainIdField).1.mpr (by decide),
   (c10_assign_rule productNameField).2.2 (by decide) (by decide)⟩

/-! ## Supporting lemmas: table-name derivation -/

theorem dropWhile_quoteFree (l : List Char) (h : quoteFreeB l = true) :
    l.dropWhile (fun c => c = '"') = l := by
  induction l with
  | nil => rfl
  | cons c cs ih =>
    simp only [quoteFreeB, List.all_cons, Bool.and_eq_true] at h
    have h1 : ¬(c = '"') := by
      intro hc
      simp [hc] at h
    rw [List.dropWhile_cons]
    simp [h1]

theorem quoteFreeB_reverse (l : List Char) :
    quoteFreeB l.reverse = quoteFreeB l := by
  simp [quoteFreeB, List.all_reverse]

theorem trimQuotes_of_quoteFree (a : String) (h : quoteFreeB a.data = true) :
    trimQuotes a = a := by
  unfold trimQuotes
  rw [dropWhile_quoteFree _ h]
  rw [dropWhile_quoteFree _ (by rw [quoteFreeB_reverse]; exact h)]
  rw [List.reverse_reverse]

theorem trimQuotes_wrapped (mid : List Char) (h : quoteFreeB mid = true) :
    trimQuotes ⟨'"' :: (mid ++ ['"'])⟩ = ⟨mid⟩ := by
  cases mid with
  | nil => decide
  | cons m ms =>
    have h1 : ¬(m = '"') := by
      intro hc
      simp [quoteFreeB, hc] at h
    unfold trimQuotes
    show String.mk _ = String.mk (m :: ms)
    congr 1
    have e1 : List.dropWhile (fun c => c = '"') ('"' :: ((m :: ms) ++ ['"']))
        = (m :: ms) ++ ['"'] := by
      simp [List.dropWhile_cons, List.cons_append, h1]
    have e3 : List.dropWhile (fun c => c = '"') ('"' :: (m :: ms).reverse)
        = (m :: ms).reverse := by
      rw [List.dropWhile_cons]
      simp only [show (decide (('"' : Char) = '"')) = true from rfl, if_true]
      exact dropWhile_quoteFree _ (by rw [quoteFreeB_reverse]; exact h)
    rw [e1]
    rw [show ((m :: ms) ++ ['"']).reverse = '"' :: (m :: ms).reverse by simp]
    rw [e3, List.reverse_reverse]

theorem stripSurroundingQuotes_wrapped (mid : List Char) :
    stripSurroundingQuotes ⟨'"' :: (mid ++ ['"'])⟩ = ⟨mid⟩ := by
  unfold stripSurroundingQuotes
  simp

theorem wellQuoted_trim_eq (a : String) (h : wellQuotedArg a = true) :
    trimQuotes a = stripSurroundingQuotes a
      ∧ quoteFreeB (trimQuotes a).data = true := by
  simp only [wellQuotedArg, Bool.or_eq_true] at h
  rcases h with h | h
  · rw [trimQuotes_of_quoteFree a h]
    constructor
    · unfold stripSurroundingQuotes
      cases hd : a.data with
      | nil => rfl
      | cons c rest =>
        have h1 : ¬(c = '"') := by
          intro hc
          rw [hd, hc] at h
          simp [quoteFreeB] at h
        split
        · rename_i heq
          injection heq with hc _
          exact absurd hc h1
        · rfl
    · exact h
  · rcases hd : a.data with _ | ⟨c, rest⟩ <;> rw [hd] at h
    · simp at h
    · rcases hc : c with _
      by_cases hq : c = '"'
      case neg => simp [hq] at h
      case pos =>
        subst hq
        rcases hl : rest.getLast? with _ | lc
        · simp [hl] at h
        · rcases hlq : lc with _
          by_cases hq2 : lc = '"'
          case neg => simp [hl, hq2] at h
          case pos =>
            subst hq2
            simp only [hl] at h
            have hrest : rest = rest.dropLast ++ ['"'] := by
              have := List.dropLast_append_getLast? _ hl
              simpa using this.symm
            have ha : a = ⟨'"' :: (rest.dropLast ++ ['"'])⟩ := by
              apply String.ext
              rw [hd]
              simp only [List.cons.injEq, true_and]
              exact hrest
            have hmid : quoteFreeB rest.dropLast = true := by
              simpa using h
            rw [ha, trimQuotes_wrapped _ hmid, stripSurroundingQuotes_wrapped]
            exact ⟨rfl, hmid⟩

theorem tableNameFromDecs_eq_firstTableArg (ds : List Decorator) :
    tableNameFromDecs ds = (firstTableArg ds).map trimQuotes := by
  induction ds with
  | nil => rfl
  | cons d rest ih =>
    by_cases hn : d.name = "table"
    · cases ha : d.args with
      | nil => simp [tableNameFromDecs, firstTableArg, hn, ha, ih]
      | cons a args => simp [tableNameFromDecs, firstTableArg, hn, ha]
    · simp [tableNameFromDecs, firstTableArg, hn, ih]

theorem firstTableArg_wellQuoted (ds : List Decorator) (a : String)
    (hall : ds.all (fun d =>
      !(d.name == "table") ||
      (match d.args with
       | [] => true
       | a :: _ => wellQuotedArg a)) = true)
    (hf : firstTableArg ds = some a) : wellQuotedArg a = true := by
  induction ds with
  | nil => simp [firstTableArg] at hf
  | cons d rest ih =>
    simp only [List.all_cons, Bool.and_eq_true] at hall
    by_cases hn : d.name = "table"
    · cases ha : d.args with
      | nil =>
        rw [firstTableArg, if_pos hn, ha] at hf
        exact ih hall.2 hf
      | cons a0 args =>
        rw [firstTableArg, if_pos hn, ha] at hf
        cases hf
        have := hall.1
        simpa [hn, ha] using this
    · rw [firstTableArg, if_neg hn] at hf
      exact ih hall.2 hf

theorem quoteFreeB_append (l1 l2 : List Char) (h1 : quoteFreeB l1 = true)
    (h2 : quoteFreeB l2 = true) : quoteFreeB (l1 ++ l2) = true := by
  simp only [quoteFreeB, List.all_append, Bool.and_eq_true]
  exact ⟨h1, h2⟩

theorem getTableName_quoteFree (s : StructDecl) (h : structQuotesOK s = true) :
    getTableName s = tableNameSpec s
      ∧ quoteFreeB (getTableName s).data = true := by
  simp only [structQuotesOK, Bool.and_eq_true] at h
  unfold getTableName tableNameSpec
  rw [tableNameFromDecs_eq_firstTableArg]
  cases hf : firstTableArg s.decorators with
  | none =>
    refine ⟨rfl, ?_⟩
    show quoteFreeB (goToLower s.name ++ "s").data = true
    have : (goToLower s.name ++ "s").data = (goToLower s.name).data ++ ['s'] := rfl
    rw [this]
    exact quoteFreeB_append _ _ h.1 (by decide)
  | some a =>
    have hw : wellQuotedArg a = true := firstTableArg_wellQuoted _ _ h.2 hf
    obtain ⟨he, hq⟩ := wellQuoted_trim_eq a hw
    exact ⟨he, hq⟩

/-- C2: table-name derivation matches the spec's rule (decorator argument
with the surrounding quotes stripped, else lowercased name + "s") on
quote-normal structs; re-deriving after tagging the struct with its own
derived name is stable; and the same derived name is handed to every CRUD
emitter and forms every route path. -/
theorem c2_table_name (s : StructDecl) (h : structQuotesOK s = true) :
    getTableName s = tableNameSpec s
  ∧ trimQuotes (getTableName s) = getTableName s
  ∧ getTableName ⟨s.name, ⟨"table", [getTableName s], []⟩ :: s.decorators, s.fields⟩
      = getTableName s
  ∧ generateCRUD s = generateInitTable s (getTableName s)
      ++ generateCreate s (getTableName s) ++ generateFind s (getTableName s)
      ++ generateAll s (getTableName s) ++ generateDelete s (getTableName s)
  ∧ createRoutePath s = "/" ++ tableNameSpec s ++ "/create"
  ∧ deleteRoutePath s = "/" ++ tableNameSpec s ++ "/delete" := by
  obtain ⟨he, hq⟩ := getTableName_quoteFree s h
  have htrim : trimQuotes (getTableName s) = getTableName s :=
    trimQuotes_of_quoteFree _ hq
  refine ⟨he, htrim, ?_, rfl, ?_, ?_⟩
  · show (match tableNameFromDecs (⟨"table", [getTableName s], []⟩ :: s.decorators) with
      | some t => t
      | none => goToLower s.name ++ "s") = getTableName s
    rw [show tableNameFromDecs (⟨"table", [getTableName s], []⟩ :: s.decorators)
        = some (trimQuotes (getTableName s)) from rfl]
    rw [htrim]
  · rw [createRoutePath, he]
  · rw [deleteRoutePath, he]

/-- C2, witness: the Todo struct of the repository's generator test (table
decorator argument `"todos"`, quotes included) derives "todos", and the
undecorated Product struct derives "products". -/
theorem c2_table_name_witness :
    getTableName todoStruct = tableNameSpec todoStruct
  ∧ getTableName todoStruct = "todos"
  ∧ getTableName productStruct = tableNameSpec productStruct
  ∧ getTableName productStruct = "products" :=
  ⟨(c2_table_name todoStruct (by decide)).1, by decide,
   (c2_table_name productStruct (by decide)).1, by decide⟩

/-! ## Supporting lemmas: the generator never reads keyword-argument maps -/

theorem getFieldConstraints_erase (f : FieldDecl) :
    getFieldConstraints (eraseField f) = getFieldConstraints f := by
  simp [getFieldConstraints, eraseField, List.foldl_map, eraseDec]

theorem isAutoCreate_erase (f : FieldDecl) :
    isAutoCreate (eraseField f) = isAutoCreate f := by
  simp only [isAutoCreate, eraseField, List.any_map]
  rfl

theorem isAutoForm_erase (f : FieldDecl) :
    isAutoForm (eraseField f) = isAutoForm f := by
  simp only [isAutoForm, eraseField, List.any_map]
  rfl

theorem isPrimaryDec_erase (f : FieldDecl) :
    isPrimaryDec (eraseField f) = isPrimaryDec f := by
  simp only [isPrimaryDec, eraseField, List.any_map]
  rfl

theorem isAutoincDec_erase (f : FieldDecl) :
    isAutoincDec (eraseField f) = isAutoincDec f := by
  simp only [isAutoincDec, eraseField, List.any_map]
  rfl

theorem assignSrc_erase (f : FieldDecl) :
    assignSrc (eraseField f) = assignSrc f := by
  unfold assignSrc
  rw [isPrimaryDec_erase, isAutoincDec_erase]
  rfl

theorem nonArrayFields_erase (fs : List FieldDecl) :
    nonArrayFields (fs.map eraseField) = (nonArrayFields fs).map eraseField := by
  induction fs with
  | nil => rfl
  | cons f fs ih =>
    by_cases h : f.isArray <;>
      simp [nonArrayFields, eraseField, h, ih]

theorem createFields_erase (fs : List FieldDecl) :
    createFields (fs.map eraseField) = (createFields fs).map eraseField := by
  induction fs with
  | nil => rfl
  | cons f fs ih =>
    by_cases h1 : f.isArray
    · simp [createFields, eraseField, h1, ih]
    · by_cases h2 : isAutoCreate f
      · simp only [List.map_cons, createFields]
        rw [show (eraseField f).isArray = f.isArray from rfl, isAutoCreate_erase]
        simp [h1, h2, ih]
      · simp only [List.map_cons, createFields]
        rw [show (eraseField f).isArray = f.isArray from rfl, isAutoCreate_erase]
        simp [h1, h2, ih]

theorem formFields_erase (fs : List FieldDecl) :
    formFields (fs.map eraseField) = (formFields fs).map eraseField := by
  induction fs with
  | nil => rfl
  | cons f fs ih =>
    simp only [List.map_cons, formFields]
    rw [show (eraseField f).isArray = f.isArray from rfl, isAutoForm_erase]
    by_cases h1 : f.isArray
    · simp [h1, ih]
    · by_cases h2 : isAutoForm f <;> simp [h1, h2, ih]

theorem routeFields_erase (fs : List FieldDecl) :
    routeFields (fs.map eraseField) = (routeFields fs).map eraseField := by
  induction fs with
  | nil => rfl
  | cons f fs ih =>
    simp only [List.map_cons, routeFields]
    rw [show (eraseField f).isArray = f.isArray from rfl, isAutoForm_erase]
    by_cases h1 : f.isArray
    · simp [h1, ih]
    · by_cases h2 : isAutoForm f <;> simp [h1, h2, ih]

theorem mainDemoFields_erase (fs : List FieldDecl) :
    mainDemoFields (fs.map eraseField) = (mainDemoFields fs).map eraseField := by
  induction fs with
  | nil => rfl
  | cons f fs ih =>
    simp only [List.map_cons, mainDemoFields]
    rw [show (eraseField f).isArray = f.isArray from rfl, isAutoCreate_erase]
    by_cases h1 : f.isArray
    · simp [h1, ih]
    · by_cases h2 : isAutoCreate f <;> simp [h1, h2, ih]

theorem tableNameFromDecs_erase (ds : List Decorator) :
    tableNameFromDecs (ds.map eraseDec) = tableNameFromDecs ds := by
  induction ds with
  | nil => rfl
  | cons d ds ih =>
    by_cases hn : d.name = "table"
    · cases ha : d.args with
      | nil => simp [tableNameFromDecs, eraseDec, hn, ha, ih]
      | cons a args => simp [tableNameFromDecs, eraseDec, hn, ha]
    · simp [tableNameFromDecs, eraseDec, hn, ih]

theorem getTableName_erase (s : StructDecl) :
    getTableName (eraseStruct s) = getTableName s := by
  unfold getTableName eraseStruct
  rw [tableNameFromDecs_erase]

theorem structFieldLines_erase (fs : List FieldDecl) :
    structFieldLines (fs.map eraseField) = structFieldLines fs := by
  induction fs with
  | nil => rfl
  | cons f fs ih => simp [structFieldLines, eraseField, ih]

theorem generateStruct_erase (s : StructDecl) :
    generateStruct (eraseStruct s) = generateStruct s := by
  simp only [generateStruct, eraseStruct]
  rw [structFieldLines_erase]

theorem initTableCols_erase (fs : List FieldDecl) :
    (nonArrayFields (fs.map eraseField)).map (fun f =>
        "        \"" ++ f.name ++ " " ++ mapSQLType f.type
          ++ getFieldConstraints f ++ "\"")
      = (nonArrayFields fs).map (fun f =>
        "        \"" ++ f.name ++ " " ++ mapSQLType f.type
          ++ getFieldConstraints f ++ "\"") := by
  rw [nonArrayFields_erase, List.map_map]
  apply List.map_congr_left
  intro f _
  simp only [Function.comp_apply]
  rw [getFieldConstraints_erase]
  rfl

theorem generateInitTable_erase (s : StructDecl) (tn : String) :
    generateInitTable (eraseStruct s) tn = generateInitTable s tn := by
  simp only [generateInitTable, eraseStruct]
  rw [initTableCols_erase]

theorem bindLines_erase (i : Nat) (fs : List FieldDecl) :
    bindLines i (fs.map eraseField) = bindLines i fs := by
  induction fs generalizing i with
  | nil => rfl
  | cons f fs ih => simp [bindLines, eraseField, ih]

theorem createParams_erase (s : StructDecl) :
    createParams (eraseStruct s) = createParams s := by
  simp only [createParams, eraseStruct]
  rw [createFields_erase, List.map_map]
  rfl

theorem insertColumnNames_erase (s : StructDecl) :
    insertColumnNames (eraseStruct s) = insertColumnNames s := by
  simp only [insertColumnNames, eraseStruct]
  rw [createFields_erase, List.map_map]
  rfl

theorem populateLines_erase (fs : List FieldDecl) :
    populateLines (fs.map eraseField) = populateLines fs := by
  induction fs with
  | nil => rfl
  | cons f fs ih =>
    simp only [List.map_cons, populateLines]
    rw [show (eraseField f).isArray = f.isArray from rfl, assignSrc_erase]
    by_cases h : f.isArray
    · simp [h, ih]
    · cases hs : assignSrc f with
      | lastInsertId => simp [h, hs, ih, eraseField]
      | fromParam dup => cases dup <;> simp [h, hs, ih, eraseField]

theorem generateCreate_erase (s : StructDecl) (tn : String) :
    generateCreate (eraseStruct s) tn = generateCreate s tn := by
  simp only [generateCreate]
  rw [createParams_erase, insertColumnNames_erase]
  rw [show (eraseStruct s).fields = s.fields.map eraseField from rfl]
  rw [createFields_erase, bindLines_erase, populateLines_erase, List.map_map]
  rfl

theorem colReadLines_erase (indent : String) (i : Nat) (fs : List FieldDecl) :
    colReadLines indent i (fs.map eraseField) = colReadLines indent i fs := by
  induction fs generalizing i with
  | nil => rfl
  | cons f fs ih => simp [colReadLines, eraseField, ih]

theorem generateFind_erase (s : StructDecl) (tn : String) :
    generateFind (eraseStruct s) tn = generateFind s tn := by
  simp only [generateFind, eraseStruct]
  rw [nonArrayFields_erase, colReadLines_erase]

theorem generateAll_erase (s : StructDecl) (tn : String) :
    generateAll (eraseStruct s) tn = generateAll s tn := by
  simp only [generateAll, eraseStruct]
  rw [nonArrayFields_erase, colReadLines_erase]

theorem generateDelete_erase (s : StructDecl) (tn : String) :
    generateDelete (eraseStruct s) tn = generateDelete s tn := rfl

theorem generateCRUD_erase (s : StructDecl) :
    generateCRUD (eraseStruct s) = generateCRUD s := by
  simp only [generateCRUD]
  rw [getTableName_erase, generateInitTable_erase, generateCreate_erase,
    generateFind_erase, generateAll_erase, generateDelete_erase]

theorem initCalls_erase (structs : List StructDecl) :
    initCalls (structs.map eraseStruct) = initCalls structs := by
  induction structs with
  | nil => rfl
  | cons s ss ih => simp [initCalls, eraseStruct, ih]

theorem demoArgs_erase (i : Nat) (sample : List String) (j : Nat)
    (fs : List FieldDecl) :
    demoArgs i sample j (fs.map eraseField) = demoArgs i sample j fs := by
  induction fs generalizing j with
  | nil => rfl
  | cons f fs ih => simp [demoArgs, eraseField, ih]

theorem demoCreates_erase (s : StructDecl) (tn : String) (i : Nat)
    (samples : List (List String)) :
    demoCreates (eraseStruct s) tn i samples = demoCreates s tn i samples := by
  induction samples generalizing i with
  | nil => rfl
  | cons sample rest ih =>
    simp only [demoCreates]
    rw [show (eraseStruct s).fields = s.fields.map eraseField from rfl,
      show (eraseStruct s).name = s.name from rfl,
      mainDemoFields_erase, demoArgs_erase, ih]

theorem demoPrintLines_erase (fs : List FieldDecl) :
    demoPrintLines (fs.map eraseField) = demoPrintLines fs := by
  induction fs with
  | nil => rfl
  | cons f fs ih => simp [demoPrintLines, eraseField, ih]

theorem firstStringPrint_erase (fs : List FieldDecl) :
    firstStringPrint (fs.map eraseField) = firstStringPrint fs := by
  induction fs with
  | nil => rfl
  | cons f fs ih => simp [firstStringPrint, eraseField, ih]

theorem demoBlock_erase (s : StructDecl) :
    demoBlock (eraseStruct s) = demoBlock s := by
  simp only [demoBlock]
  rw [show (eraseStruct s).fields = s.fields.map eraseField from rfl,
    show (eraseStruct s).name = s.name from rfl,
    demoPrintLines_erase, firstStringPrint_erase, demoCreates_erase]

theorem generateMain_erase (structs : List StructDecl) :
    generateMain (structs.map eraseStruct) = generateMain structs := by
  simp only [generateMain]
  rw [initCalls_erase]
  cases structs with
  | nil => rfl
  | cons s ss => simp only [List.map_cons]; rw [demoBlock_erase]

theorem dataListHeaderLines_erase (fs : List FieldDecl) :
    dataListHeaderLines (fs.map eraseField) = dataListHeaderLines fs := by
  induction fs with
  | nil => rfl
  | cons f fs ih => simp [dataListHeaderLines, eraseField, ih]

theorem dataListCellLines_erase (fs : List FieldDecl) :
    dataListCellLines (fs.map eraseField) = dataListCellLines fs := by
  induction fs with
  | nil => rfl
  | cons f fs ih => simp [dataListCellLines, eraseField, ih]

theorem generateDataListHTML_erase (s : StructDecl) :
    generateDataListHTML (eraseStruct s) = generateDataListHTML s := by
  simp only [generateDataListHTML]
  rw [show (eraseStruct s).fields = s.fields.map eraseField from rfl,
    show (eraseStruct s).name = s.name from rfl,
    getTableName_erase, dataListHeaderLines_erase, dataListCellLines_erase]

theorem formControlLine_erase (f : FieldDecl) :
    formControlLine (eraseField f) = formControlLine f := rfl

theorem formFieldBlocks_erase (fs : List FieldDecl) :
    formFieldBlocks (fs.map eraseField) = formFieldBlocks fs := by
  induction fs with
  | nil => rfl
  | cons f fs ih =>
    simp only [List.map_cons, formFieldBlocks]
    rw [show (eraseField f).isArray = f.isArray from rfl, isAutoForm_erase,
      formControlLine_erase, ih]
    rfl

theorem generateFormHTML_erase (s : StructDecl) :
    generateFormHTML (eraseStruct s) = generateFormHTML s := by
  simp only [generateFormHTML]
  rw [show (eraseStruct s).fields = s.fields.map eraseField from rfl,
    getTableName_erase, formFieldBlocks_erase]

theorem generateHTMLFunctions_erase (pages : List PageDecl)
    (structs : List StructDecl) :
    generateHTMLFunctions (pages.map erasePage) (structs.map eraseStruct)
      = generateHTMLFunctions pages structs := by
  simp only [generateHTMLFunctions]
  cases pages with
  | nil => rfl
  | cons p ps =>
    simp only [List.map_cons]
    rw [show (erasePage p).name = p.name from rfl]
    cases structs with
    | nil => rfl
    | cons s ss =>
      simp only [List.map_cons]
      rw [generateDataListHTML_erase, generateFormHTML_erase]

theorem routeDeclLines_erase (fs : List FieldDecl) :
    routeDeclLines (fs.map eraseField) = routeDeclLines fs := by
  induction fs with
  | nil => rfl
  | cons f fs ih => simp [routeDeclLines, eraseField, ih]

theorem routeMatchLines_erase (fs : List FieldDecl) :
    routeMatchLines (fs.map eraseField) = routeMatchLines fs := by
  induction fs with
  | nil => rfl
  | cons f fs ih => simp [routeMatchLines, eraseField, ih]

theorem generateRouteHandler_erase (structs : List StructDecl)
    (pages : List PageDecl) :
    generateRouteHandler (structs.map eraseStruct) (pages.map erasePage)
      = generateRouteHandler structs pages := by
  simp only [generateRouteHandler]
  cases structs with
  | nil => rfl
  | cons s ss =>
    simp only [List.map_cons]
    rw [show (eraseStruct s).fields = s.fields.map eraseField from rfl,
      show (eraseStruct s).name = s.name from rfl,
      getTableName_erase, routeFields_erase, routeDeclLines_erase,
      routeMatchLines_erase, List.map_map]
    cases pages with
    | nil => rfl
    | cons p ps =>
      simp only [List.map_cons]
      rw [show (erasePage p).name = p.name from rfl]
      rfl

theorem generateWebMain_erase (structs : List StructDecl) :
    generateWebMain (structs.map eraseStruct) = generateWebMain structs := by
  simp only [generateWebMain]
  rw [initCalls_erase]

theorem collect_erase (ns : List Node) :
    collect (ns.map eraseNode)
      = ((collect ns).1.map eraseStruct, (collect ns).2.1.map erasePage,
         (collect ns).2.2.map eraseHandler) := by
  induction ns with
  | nil => rfl
  | cons n ns ih =>
    cases n <;> simp [collect, eraseNode, ih]

theorem Generate_erase (p : Program) :
    Generate (eraseProgram p) = Generate p := by
  simp only [Generate, eraseProgram]
  rw [collect_erase]
  simp only []
  rw [show ∀ (l : List PageDecl), (l.map erasePage).isEmpty = l.isEmpty
      from fun l => by cases l <;> rfl,
    show ∀ (l : List HandlerDecl), (l.map eraseHandler).isEmpty = l.isEmpty
      from fun l => by cases l <;> rfl]
  rw [show ((collect p.statements).1.map eraseStruct).map generateStruct
      = (collect p.statements).1.map generateStruct from by
        rw [List.map_map]
        exact List.map_congr_left fun s _ => generateStruct_erase s]
  rw [show ((collect p.statements).1.map eraseStruct).map generateCRUD
      = (collect p.statements).1.map generateCRUD from by
        rw [List.map_map]
        exact List.map_congr_left fun s _ => generateCRUD_erase s]
  rw [generateHTMLFunctions_erase, generateRouteHandler_erase,
    generateWebMain_erase, generateMain_erase]

/-- C8: generation is a deterministic function of the Program — two runs over
identical ASTs emit byte-identical text — and it factors through the erasure
of every keyword-argument map, so no unordered (map-valued) component of the
AST influences the output; all emitted field and decorator sequences come
from the ordered lists. -/
theorem c8_generate_deterministic (p q : Program) :
    (p = q → Generate p = Generate q)
  ∧ (eraseProgram p = eraseProgram q → Generate p = Generate q) :=
  ⟨fun h => by rw [h],
   fun h => by rw [← Generate_erase p, ← Generate_erase q, h]⟩

/-- C8, witness: two programs differing only in a decorator's
keyword-argument map generate byte-identical output. -/
theorem c8_generate_deterministic_witness :
    Generate kvProgA = Generate kvProgB ∧ kvProgA ≠ kvProgB :=
  ⟨(c8_generate_deterministic kvProgA kvProgB).2 (by decide), by decide⟩

/-! ## Supporting lemmas: the tokenizer's movement primitives -/

theorem readChar_input (st : LexState) : (readChar st).input = st.input := rfl

theorem readChar_pos (st : LexState) : (readChar st).pos = st.pos + 1 := rfl

theorem advanceN_input (st : LexState) (n : Nat) :
    (advanceN st n).input = st.input := by
  induction n generalizing st with
  | zero => rfl
  | succ n ih => rw [advanceN, ih, readChar_input]

theorem advanceN_pos (st : LexState) (n : Nat) :
    (advanceN st n).pos = st.pos + n := by
  induction n generalizing st with
  | zero => rfl
  | succ n ih => rw [advanceN, ih, readChar_pos]; omega

theorem curCh_eq_headD (st : LexState) :
    curCh st = (restOf st).headD '\x00' := by
  rw [curCh, restOf, List.headD_eq_head?_getD, List.head?_drop,
    List.getD_eq_getElem?_getD]

theorem restOf_readChar (st : LexState) :
    restOf (readChar st) = (restOf st).tail := by
  rw [restOf, restOf, readChar_input, readChar_pos, List.tail_drop]

theorem restOf_advanceN (st : LexState) (n : Nat) :
    restOf (advanceN st n) = (restOf st).drop n := by
  rw [restOf, restOf, advanceN_input, advanceN_pos, List.drop_drop]

theorem curCh_ne_nul_lt (st : LexState) (h : curCh st ≠ '\x00') :
    st.pos < st.input.length := by
  by_contra hge
  exact h (by rw [curCh, List.getD_eq_default _ _ (by omega)])

/-! ## Supporting lemmas: string-literal scanning (claim C9) -/

theorem strEnd_cons_other (c : Char) (xs : List Char) (hc1 : c ≠ '"')
    (hc2 : c ≠ '\\') (hc3 : c ≠ '\x00') :
    strEnd (c :: xs) = 1 + strEnd xs := by
  rw [strEnd.eq_def]
  split
  case h_1 heq => simp at heq
  case h_2 tail heq =>
    injection heq with h1 _
    exact absurd h1 hc1
  case h_3 tail heq =>
    injection heq with h1 _
    exact absurd h1 hc3
  case h_4 rest heq =>
    injection heq with h1 _
    exact absurd h1 hc2
  case h_5 head rest h1 h2 h3 heq =>
    injection heq with _ e2
    rw [e2]

theorem strEnd_body_append (b : List Char) (hb : StrBody b) (rest : List Char) :
    strEnd (b ++ '"' :: rest) = b.length := by
  induction hb with
  | nil => rfl
  | esc b _ ih =>
    simp only [List.cons_append, List.length_cons]
    rw [show ∀ xs, strEnd ('\\' :: '"' :: xs) = 2 + strEnd xs from fun xs => rfl, ih]
    omega
  | chr c b hc1 hc2 hc3 _ ih =>
    simp only [List.cons_append, List.length_cons]
    rw [strEnd_cons_other c _ hc1 hc2 hc3, ih]
    omega

theorem strEnd_body_all (b : List Char) (hb : StrBody b) :
    strEnd b = b.length := by
  induction hb with
  | nil => rfl
  | esc b _ ih =>
    simp only [List.length_cons]
    rw [show ∀ xs, strEnd ('\\' :: '"' :: xs) = 2 + strEnd xs from fun xs => rfl, ih]
    omega
  | chr c b hc1 hc2 hc3 _ ih =>
    simp only [List.length_cons]
    rw [strEnd_cons_other c _ hc1 hc2 hc3, ih]
    omega

theorem triviaLen_quote (xs : List Char) : triviaLen ('"' :: xs) = 0 := by
  simp [triviaLen, triviaLenF, isWS]

theorem scanTok_quote (st : LexState) (hc : curCh st = '"') :
    scanTok st = (⟨TT.stringLit, (readString st).1, st.line, st.col⟩,
      (readString st).2) := by
  simp [scanTok, hc]

/-- C9: a string literal's text is the span between the delimiting quotes,
delimiters excluded; a backslash immediately followed by a double quote is
consumed as an escaped quote without terminating the literal; and a string
with no closing quote consumes to end of input and still yields a string
token (the tokenizer has no error channel at all — nothing but the token is
produced). -/
theorem c9_string_literal (st : LexState) (body rest : List Char)
    (hb : StrBody body) :
    (restOf st = '"' :: (body ++ '"' :: rest) →
        (nextToken st).1.type = TT.stringLit
      ∧ (nextToken st).1.literal = ⟨body⟩
      ∧ (nextToken st).2.pos = st.pos + body.length + 2)
  ∧ (restOf st = '"' :: body →
        (nextToken st).1.type = TT.stringLit
      ∧ (nextToken st).1.literal = ⟨body⟩
      ∧ st.input.length ≤ (nextToken st).2.pos) := by
  constructor
  · intro hsuf
    have hc : curCh st = '"' := by rw [curCh_eq_headD, hsuf]; rfl
    have hnt : nextToken st = scanTok st := by
      rw [nextToken, hsuf, triviaLen_quote]
      rfl
    have hrs : readString st = (⟨body⟩, readChar (advanceN (readChar st) body.length)) := by
      unfold readString
      dsimp only
      rw [restOf_readChar, hsuf]
      simp only [List.tail_cons]
      rw [strEnd_body_append _ hb, List.take_left]
    rw [hnt, scanTok_quote st hc, hrs]
    refine ⟨rfl, rfl, ?_⟩
    rw [readChar_pos, advanceN_pos, readChar_pos]
    omega
  · intro hsuf
    have hc : curCh st = '"' := by rw [curCh_eq_headD, hsuf]; rfl
    have hnt : nextToken st = scanTok st := by
      rw [nextToken, hsuf, triviaLen_quote]
      rfl
    have hrs : readString st = (⟨body⟩, readChar (advanceN (readChar st) body.length)) := by
      unfold readString
      dsimp only
      rw [restOf_readChar, hsuf]
      simp only [List.tail_cons]
      rw [strEnd_body_all _ hb, List.take_length]
    have hlen : (restOf st).length = st.input.length - st.pos := by
      rw [restOf]
      exact List.length_drop _ _
    rw [hsuf] at hlen
    simp only [List.length_cons] at hlen
    rw [hnt, scanTok_quote st hc, hrs]
    refine ⟨rfl, rfl, ?_⟩
    rw [readChar_pos, advanceN_pos, readChar_pos]
    omega

/-- C9, witness: scanning `"a\"b" x` yields a string token with literal
`a\"b` (escaped quote kept, delimiters excluded); scanning the unterminated
`"ab` yields a string token with literal `ab`. -/
theorem c9_string_literal_witness :
    (nextToken (mkLexer "\"a\\\"b\" x")).1.type = TT.stringLit
  ∧ (nextToken (mkLexer "\"a\\\"b\" x")).1.literal = "a\\\"b"
  ∧ (nextToken (mkLexer "\"ab")).1.type = TT.stringLit
  ∧ (nextToken (mkLexer "\"ab")).1.literal = "ab" := by
  have hb1 : StrBody ['a', '\\', '"', 'b'] :=
    .chr 'a' _ (by decide) (by decide) (by decide)
      (.esc _ (.chr 'b' _ (by decide) (by decide) (by decide) .nil))
  have hb2 : StrBody ['a', 'b'] :=
    .chr 'a' _ (by decide) (by decide) (by decide)
      (.chr 'b' _ (by decide) (by decide) (by decide) .nil)
  have h1 := (c9_string_literal (mkLexer "\"a\\\"b\" x") ['a', '\\', '"', 'b']
    [' ', 'x'] hb1).1 (by decide)
  have h2 := (c9_string_literal (mkLexer "\"ab") ['a', 'b'] [] hb2).2 (by decide)
  exact ⟨h1.1, h1.2.1.trans (by decide), h2.1, h2.2.1.trans (by decide)⟩

/-! ## Supporting lemmas: lexer progress (claim C7) -/

theorem readString_input (st : LexState) : (readString st).2.input = st.input := by
  simp only [readString]
  try dsimp only
  rw [readChar_input, advanceN_input, readChar_input]

theorem readIdentifier_input (st : LexState) :
    (readIdentifier st).2.input = st.input := by
  simp only [readIdentifier]
  try dsimp only
  rw [advanceN_input]

theorem readNumber_input (st : LexState) :
    (readNumber st).2.1.input = st.input := by
  simp only [readNumber]
  try dsimp only
  split
  · dsimp only
    rw [advanceN_input, readChar_input, advanceN_input]
  · dsimp only
    rw [advanceN_input]

theorem readString_pos_lt (st : LexState) : st.pos < (readString st).2.pos := by
  simp only [readString]
  try dsimp only
  rw [readChar_pos, advanceN_pos, readChar_pos]
  omega

theorem takeWhile_head_pos (p : Char → Bool) (st : LexState)
    (hn : curCh st ≠ '\x00') (hp : p (curCh st) = true) :
    0 < ((restOf st).takeWhile p).length := by
  have hlt := curCh_ne_nul_lt st hn
  cases hr : restOf st with
  | nil =>
    have : (restOf st).length = st.input.length - st.pos := by
      rw [restOf]; exact List.length_drop _ _
    rw [hr] at this
    simp at this
    omega
  | cons c rest =>
    have hc : c = curCh st := by rw [curCh_eq_headD, hr]; rfl
    rw [List.takeWhile_cons, if_pos (by rw [hc]; exact hp)]
    simp

theorem readIdentifier_pos_lt (st : LexState)
    (h : isLetter (curCh st) = true) : st.pos < (readIdentifier st).2.pos := by
  have hn : curCh st ≠ '\x00' := by
    intro hz; rw [hz] at h; exact absurd h (by decide)
  have hlen := takeWhile_head_pos
    (fun c => isLetter c || isDigitCh c || c == '_') st hn (by simp [h])
  simp only [readIdentifier]
  try dsimp only
  rw [advanceN_pos]
  omega

theorem readNumber_pos_lt (st : LexState)
    (h : isDigitCh (curCh st) = true) : st.pos < (readNumber st).2.1.pos := by
  have hn : curCh st ≠ '\x00' := by
    intro hz; rw [hz] at h; exact absurd h (by decide)
  have hlen := takeWhile_head_pos isDigitCh st hn h
  simp only [readNumber]
  try dsimp only
  split
  · dsimp only
    rw [advanceN_pos, readChar_pos, advanceN_pos]
    omega
  · dsimp only
    rw [advanceN_pos]
    omega

set_option maxHeartbeats 1600000 in
theorem scanTok_input (s : LexState) : (scanTok s).2.input = s.input := by
  simp only [scanTok]
  by_cases h1 : curCh s = '@'
  · simp only [if_pos h1]
    rfl
  simp only [if_neg h1]
  by_cases h2 : curCh s = '='
  · simp only [if_pos h2]
    by_cases p2 : peekCh s = '='
    · simp only [if_pos p2]
      rfl
    simp only [if_neg p2]
    rfl
  simp only [if_neg h2]
  by_cases h3 : curCh s = '+'
  · simp only [if_pos h3]
    rfl
  simp only [if_neg h3]
  by_cases h4 : curCh s = '-'
  · simp only [if_pos h4]
    rfl
  simp only [if_neg h4]
  by_cases h5 : curCh s = '*'
  · simp only [if_pos h5]
    rfl
  simp only [if_neg h5]
  by_cases h6 : curCh s = '/'
  · simp only [if_pos h6]
    rfl
  simp only [if_neg h6]
  by_cases h7 : curCh s = '<'
  · simp only [if_pos h7]
    by_cases p7 : peekCh s = '='
    · simp only [if_pos p7]
      rfl
    simp only [if_neg p7]
    rfl
  simp only [if_neg h7]
  by_cases h8 : curCh s = '>'
  · simp only [if_pos h8]
    by_cases p8 : peekCh s = '='
    · simp only [if_pos p8]
      rfl
    simp only [if_neg p8]
    rfl
  simp only [if_neg h8]
  by_cases h9 : curCh s = '!'
  · simp only [if_pos h9]
    by_cases p9 : peekCh s = '='
    · simp only [if_pos p9]
      rfl
    simp only [if_neg p9]
    rfl
  simp only [if_neg h9]
  by_cases h10 : curCh s = '&'
  · simp only [if_pos h10]
    by_cases p10 : peekCh s = '&'
    · simp only [if_pos p10]
      rfl
    simp only [if_neg p10]
    rfl
  simp only [if_neg h10]
  by_cases h11 : curCh s = '|'
  · simp only [if_pos h11]
    by_cases p11 : peekCh s = '|'
    · simp only [if_pos p11]
      rfl
    simp only [if_neg p11]
    rfl
  simp only [if_neg h11]
  by_cases h12 : curCh s = ','
  · simp only [if_pos h12]
    rfl
  simp only [if_neg h12]
  by_cases h13 : curCh s = ';'
  · simp only [if_pos h13]
    rfl
  simp only [if_neg h13]
  by_cases h14 : curCh s = ':'
  · simp only [if_pos h14]
    rfl
  simp only [if_neg h14]
  by_cases h15 : curCh s = '('
  · simp only [if_pos h15]
    rfl
  simp only [if_neg h15]
  by_cases h16 : curCh s = ')'
  · simp only [if_pos h16]
    rfl
  simp only [if_neg h16]
  by_cases h17 : curCh s = '\x7b'
  · simp only [if_pos h17]
    rfl
  simp only [if_neg h17]
  by_cases h18 : curCh s = '\x7d'
  · simp only [if_pos h18]
    rfl
  simp only [if_neg h18]
  by_cases h19 : curCh s = '['
  · simp only [if_pos h19]
    rfl
  simp only [if_neg h19]
  by_cases h20 : curCh s = ']'
  · simp only [if_pos h20]
    rfl
  simp only [if_neg h20]
  by_cases h21 : curCh s = '"'
  · simp only [if_pos h21]
    exact readString_input s
  simp only [if_neg h21]
  by_cases h22 : curCh s = '\x00'
  · simp only [if_pos h22]
    rfl
  simp only [if_neg h22]
  by_cases h23 : isLetter (curCh s) = true
  · simp only [if_pos h23]
    exact readIdentifier_input s
  simp only [if_neg h23]
  by_cases h24 : isDigitCh (curCh s) = true
  · simp only [if_pos h24]
    exact readNumber_input s
  simp only [if_neg h24]
  rfl

set_option maxHeartbeats 1600000 in
theorem scanTok_pos_lt (s : LexState) : s.pos < (scanTok s).2.pos := by
  have l1 : ∀ x : LexState, x.pos < (readChar x).pos := fun x => by
    rw [readChar_pos]; omega
  have l2 : ∀ x : LexState, x.pos < (readChar (readChar x)).pos := fun x => by
    rw [readChar_pos, readChar_pos]; omega
  simp only [scanTok]
  by_cases h1 : curCh s = '@'
  · simp only [if_pos h1]
    exact l1 s
  simp only [if_neg h1]
  by_cases h2 : curCh s = '='
  · simp only [if_pos h2]
    by_cases p2 : peekCh s = '='
    · simp only [if_pos p2]
      exact l2 s
    simp only [if_neg p2]
    exact l1 s
  simp only [if_neg h2]
  by_cases h3 : curCh s = '+'
  · simp only [if_pos h3]
    exact l1 s
  simp only [if_neg h3]
  by_cases h4 : curCh s = '-'
  · simp only [if_pos h4]
    exact l1 s
  simp only [if_neg h4]
  by_cases h5 : curCh s = '*'
  · simp only [if_pos h5]
    exact l1 s
  simp only [if_neg h5]
  by_cases h6 : curCh s = '/'
  · simp only [if_pos h6]
    exact l1 s
  simp only [if_neg h6]
  by_cases h7 : curCh s = '<'
  · simp only [if_pos h7]
    by_cases p7 : peekCh s = '='
    · simp only [if_pos p7]
      exact l2 s
    simp only [if_neg p7]
    exact l1 s
  simp only [if_neg h7]
  by_cases h8 : curCh s = '>'
  · simp only [if_pos h8]
    by_cases p8 : peekCh s = '='
    · simp only [if_pos p8]
      exact l2 s
    simp only [if_neg p8]
    exact l1 s
  simp only [if_neg h8]
  by_cases h9 : curCh s = '!'
  · simp only [if_pos h9]
    by_cases p9 : peekCh s = '='
    · simp only [if_pos p9]
      exact l2 s
    simp only [if_neg p9]
    exact l1 s
  simp only [if_neg h9]
  by_cases h10 : curCh s = '&'
  · simp only [if_pos h10]
    by_cases p10 : peekCh s = '&'
    · simp only [if_pos p10]
      exact l2 s
    simp only [if_neg p10]
    exact l1 s
  simp only [if_neg h10]
  by_cases h11 : curCh s = '|'
  · simp only [if_pos h11]
    by_cases p11 : peekCh s = '|'
    · simp only [if_pos p11]
      exact l2 s
    simp only [if_neg p11]
    exact l1 s
  simp only [if_neg h11]
  by_cases h12 : curCh s = ','
  · simp only [if_pos h12]
    exact l1 s
  simp only [if_neg h12]
  by_cases h13 : curCh s = ';'
  · simp only [if_pos h13]
    exact l1 s
  simp only [if_neg h13]
  by_cases h14 : curCh s = ':'
  · simp only [if_pos h14]
    exact l1 s
  simp only [if_neg h14]
  by_cases h15 : curCh s = '('
  · simp only [if_pos h15]
    exact l1 s
  simp only [if_neg h15]
  by_cases h16 : curCh s = ')'
  · simp only [if_pos h16]
    exact l1 s
  simp only [if_neg h16]
  by_cases h17 : curCh s = '\x7b'
  · simp only [if_pos h17]
    exact l1 s
  simp only [if_neg h17]
  by_cases h18 : curCh s = '\x7d'
  · simp only [if_pos h18]
    exact l1 s
  simp only [if_neg h18]
  by_cases h19 : curCh s = '['
  · simp only [if_pos h19]
    exact l1 s
  simp only [if_neg h19]
  by_cases h20 : curCh s = ']'
  · simp only [if_pos h20]
    exact l1 s
  simp only [if_neg h20]
  by_cases h21 : curCh s = '"'
  · simp only [if_pos h21]
    exact readString_pos_lt s
  simp only [if_neg h21]
  by_cases h22 : curCh s = '\x00'
  · simp only [if_pos h22]
    exact l1 s
  simp only [if_neg h22]
  by_cases h23 : isLetter (curCh s) = true
  · simp only [if_pos h23]
    exact readIdentifier_pos_lt s h23
  simp only [if_neg h23]
  by_cases h24 : isDigitCh (curCh s) = true
  · simp only [if_pos h24]
    exact readNumber_pos_lt s h24
  simp only [if_neg h24]
  exact l1 s

theorem scanTok_eof_of_nul (s : LexState) (hz : curCh s = '\x00') :
    (scanTok s).1.type = TT.eof := by
  simp [scanTok, hz]

theorem nextToken_input (st : LexState) : (nextToken st).2.input = st.input := by
  rw [nextToken, scanTok_input, advanceN_input]

theorem nextToken_progress (st : LexState)
    (h : (nextToken st).1.type ≠ TT.eof) :
    st.pos < st.input.length
  ∧ st.input.length - (nextToken st).2.pos < st.input.length - st.pos := by
  rw [nextToken] at h ⊢
  have hz : curCh (advanceN st (triviaLen (restOf st))) ≠ '\x00' :=
    fun hzz => h (scanTok_eof_of_nul _ hzz)
  have hlt := curCh_ne_nul_lt _ hz
  rw [advanceN_pos, advanceN_input] at hlt
  have hp := scanTok_pos_lt (advanceN st (triviaLen (restOf st)))
  rw [advanceN_pos] at hp
  omega

theorem tokenizeFuel_len (fuel : Nat) (st : LexState) :
    (tokenizeFuel fuel st).length ≤ fuel := by
  induction fuel generalizing st with
  | zero => simp [tokenizeFuel]
  | succ n ih =>
    have hstep : tokenizeFuel (n + 1) st =
        if (nextToken st).1.type = TT.eof then [(nextToken st).1]
        else (nextToken st).1 :: tokenizeFuel n (nextToken st).2 := rfl
    rw [hstep]
    split_ifs
    · simp
    · simp only [List.length_cons]
      exact Nat.succ_le_succ (ih _)

theorem tokenizeFuel_eof (fuel : Nat) (st : LexState)
    (hf : st.input.length - st.pos < fuel) :
    ∃ ts t, tokenizeFuel fuel st = ts ++ [t] ∧ t.type = TT.eof := by
  induction fuel generalizing st with
  | zero => omega
  | succ n ih =>
    have hstep : tokenizeFuel (n + 1) st =
        if (nextToken st).1.type = TT.eof then [(nextToken st).1]
        else (nextToken st).1 :: tokenizeFuel n (nextToken st).2 := rfl
    rw [hstep]
    split_ifs with he
    · exact ⟨[], (nextToken st).1, rfl, he⟩
    · have hp := nextToken_progress st he
      have hi := nextToken_input st
      obtain ⟨ts, t, heq, het⟩ := ih (nextToken st).2 (by rw [hi]; omega)
      exact ⟨(nextToken st).1 :: ts, t, by rw [heq]; rfl, het⟩

theorem tokenize_eof (input : String) :
    ∃ ts t, tokenize input = ts ++ [t] ∧ t.type = TT.eof :=
  tokenizeFuel_eof _ _
    (show input.data.length - 0 < input.data.length + 1 by omega)

/-! ## Supporting lemmas: parser state discipline (claim C7) -/

theorem stepOK_refl (a : PState) : stepOK a a :=
  ⟨le_refl _, [], by simp⟩

theorem stepOK_trans {a b c : PState} (h1 : stepOK a b) (h2 : stepOK b c) :
    stepOK a c := by
  obtain ⟨hl1, es1, he1⟩ := h1
  obtain ⟨hl2, es2, he2⟩ := h2
  exact ⟨le_trans hl2 hl1, es1 ++ es2, by rw [he2, he1, List.append_assoc]⟩

theorem stepOK_advT (a : PState) : stepOK a (advT a) := by
  refine ⟨?_, [], by simp [advT]⟩
  simp only [advT, List.length_tail]
  omega

theorem stepOK_addErr (a : PState) (e : String) : stepOK a (addErr a e) :=
  ⟨le_refl _, [e], rfl⟩

theorem stepOK_comp_advT {a b : PState} (h : stepOK a b) : stepOK a (advT b) :=
  stepOK_trans h (stepOK_advT b)

theorem stepOK_expectPeek (a : PState) (t : TT) :
    stepOK a (expectPeek a t).2 := by
  rw [expectPeek]
  split_ifs
  · exact stepOK_advT a
  · exact stepOK_addErr a _

theorem parseDecArgs_ok (fuel : Nat) (dec : Decorator) (st : PState) :
    stepOK st (parseDecArgs fuel dec st).2 := by
  induction fuel generalizing dec st with
  | zero => exact stepOK_refl st
  | succ n ih =>
    simp only [parseDecArgs]
    split_ifs
    · exact stepOK_trans (stepOK_comp_advT (stepOK_comp_advT
        (stepOK_comp_advT (stepOK_comp_advT (stepOK_refl st))))) (ih _ _)
    · exact stepOK_trans (stepOK_comp_advT
        (stepOK_comp_advT (stepOK_comp_advT (stepOK_refl st)))) (ih _ _)
    · exact stepOK_trans (stepOK_comp_advT (stepOK_comp_advT (stepOK_refl st)))
        (ih _ _)
    · exact stepOK_trans (stepOK_comp_advT (stepOK_refl st)) (ih _ _)
    · exact stepOK_trans (stepOK_comp_advT (stepOK_refl st)) (ih _ _)
    · exact stepOK_refl st

theorem parseDecoratorsF_ok (fuel : Nat) (st : PState) :
    stepOK st (parseDecoratorsF fuel st).2 := by
  induction fuel generalizing st with
  | zero => exact stepOK_refl st
  | succ n ih =>
    have h3 : stepOK st (advT (advT (advT st))) :=
      stepOK_comp_advT (stepOK_comp_advT (stepOK_comp_advT (stepOK_refl st)))
    simp only [parseDecoratorsF]
    split_ifs with hAt hId hLp hRp
    · exact stepOK_trans (stepOK_comp_advT (stepOK_trans h3
        (parseDecArgs_ok _ _ _))) (ih _)
    · exact stepOK_trans (stepOK_trans h3 (parseDecArgs_ok _ _ _))
        (stepOK_addErr _ _)
    · exact stepOK_trans (stepOK_comp_advT (stepOK_comp_advT (stepOK_refl st)))
        (ih _)
    · exact stepOK_advT st
    · exact stepOK_refl st

theorem parseDecorators_ok (st : PState) : stepOK st (parseDecorators st).2 :=
  parseDecoratorsF_ok _ st

theorem fieldTail_ok (decs : List Decorator) (ftype : String) (isArr : Bool)
    (st : PState) : stepOK st (fieldTail decs ftype isArr st).2 := by
  simp only [fieldTail]
  split_ifs
  · exact stepOK_advT st
  · exact stepOK_trans (stepOK_advT st) (stepOK_addErr (advT st) _)
  · exact stepOK_refl st

theorem parseFieldDecl_ok (st : PState) : stepOK st (parseFieldDecl st).2 := by
  simp only [parseFieldDecl]
  split_ifs with hA hTy hBr hOk hTy2 hBr2 hOk2
  · exact stepOK_trans (stepOK_comp_advT (stepOK_trans
      (stepOK_comp_advT (parseDecorators_ok st))
      (stepOK_expectPeek _ TT.rbracket))) (fieldTail_ok _ _ true _)
  · exact stepOK_trans (stepOK_comp_advT (parseDecorators_ok st))
      (stepOK_expectPeek _ TT.rbracket)
  · exact stepOK_trans (stepOK_comp_advT (parseDecorators_ok st))
      (fieldTail_ok _ _ false _)
  · exact parseDecorators_ok st
  · exact stepOK_trans (stepOK_comp_advT (stepOK_trans
      (stepOK_comp_advT (stepOK_refl st))
      (stepOK_expectPeek _ TT.rbracket))) (fieldTail_ok _ _ true _)
  · exact stepOK_trans (stepOK_comp_advT (stepOK_refl st))
      (stepOK_expectPeek _ TT.rbracket)
  · exact stepOK_trans (stepOK_comp_advT (stepOK_refl st))
      (fieldTail_ok _ _ false _)
  · exact stepOK_refl st

theorem structFieldsLoop_ok (fuel : Nat) (st : PState) :
    stepOK st (structFieldsLoop fuel st).2 := by
  induction fuel generalizing st with
  | zero => exact stepOK_refl st
  | succ n ih =>
    simp only [structFieldsLoop]
    split_ifs
    · exact stepOK_trans (stepOK_comp_advT (parseFieldDecl_ok st)) (ih _)
    · exact stepOK_refl st

theorem parseStructDecl_ok (st : PState) :
    stepOK st (parseStructDecl st).2 := by
  simp only [parseStructDecl]
  split_ifs
  · exact stepOK_trans (stepOK_comp_advT (stepOK_trans
      (stepOK_expectPeek st TT.ident)
      (stepOK_expectPeek _ TT.lbrace))) (structFieldsLoop_ok _ _)
  · exact stepOK_trans (stepOK_expectPeek st TT.ident)
      (stepOK_expectPeek _ TT.lbrace)
  · exact stepOK_expectPeek st TT.ident

theorem skipBody_ok (fuel : Nat) (st : PState) :
    stepOK st (skipBody fuel st) := by
  induction fuel generalizing st with
  | zero => exact stepOK_refl st
  | succ n ih =>
    simp only [skipBody]
    split_ifs
    · exact stepOK_trans (stepOK_advT st) (ih (advT st))
    · exact stepOK_refl st

theorem parsePageDecl_ok (st : PState) : stepOK st (parsePageDecl st).2 := by
  simp only [parsePageDecl]
  split_ifs
  · exact stepOK_trans (stepOK_comp_advT (stepOK_trans
      (stepOK_expectPeek st TT.ident)
      (stepOK_expectPeek _ TT.lbrace))) (skipBody_ok _ _)
  · exact stepOK_trans (stepOK_expectPeek st TT.ident)
      (stepOK_expectPeek _ TT.lbrace)
  · exact stepOK_expectPeek st TT.ident

theorem braceSkipLoop_ok (fuel : Nat) (st : PState) (depth : Int) :
    stepOK st (braceSkipLoop fuel st depth) := by
  induction fuel generalizing st depth with
  | zero => exact stepOK_refl st
  | succ n ih =>
    simp only [braceSkipLoop]
    split_ifs
    · exact stepOK_refl st
    · exact stepOK_trans (stepOK_advT st) (ih (advT st) _)
    · exact stepOK_refl st
    · exact stepOK_trans (stepOK_advT st) (ih (advT st) _)
    · exact stepOK_trans (stepOK_advT st) (ih (advT st) _)

theorem parseFunctionDecl_ok (st : PState) :
    stepOK st (parseFunctionDecl st).2 := by
  simp only [parseFunctionDecl]
  split_ifs
  · exact stepOK_trans (stepOK_advT st)
      (braceSkipLoop_ok ((advT st).toks.length + 1) (advT st) 0)
  · exact stepOK_advT st

theorem handlerParamsLoop_ok (fuel : Nat) (st : PState)
    (acc : List Parameter) : stepOK st (handlerParamsLoop fuel st acc).2 := by
  induction fuel generalizing st acc with
  | zero => exact stepOK_refl st
  | succ n ih =>
    simp only [handlerParamsLoop]
    split_ifs
    · exact stepOK_trans (stepOK_comp_advT
        (stepOK_comp_advT (stepOK_comp_advT (stepOK_refl st)))) (ih _ _)
    · exact stepOK_trans (stepOK_comp_advT (stepOK_comp_advT (stepOK_refl st)))
        (ih _ _)
    · exact stepOK_trans (stepOK_comp_advT (stepOK_comp_advT (stepOK_refl st)))
        (ih _ _)
    · exact stepOK_trans (stepOK_comp_advT (stepOK_refl st)) (ih _ _)
    · exact stepOK_refl st

theorem parseHandlerDecl_ok (st : PState) :
    stepOK st (parseHandlerDecl st).2 := by
  have h3 : stepOK st (advT (advT (advT st))) :=
    stepOK_comp_advT (stepOK_comp_advT (stepOK_comp_advT (stepOK_refl st)))
  simp only [parseHandlerDecl]
  split_ifs with hId hLp hRp hBr
  · exact stepOK_trans (stepOK_comp_advT (stepOK_trans h3
      (handlerParamsLoop_ok _ _ _))) (braceSkipLoop_ok _ _ 0)
  · exact stepOK_comp_advT (stepOK_trans h3 (handlerParamsLoop_ok _ _ _))
  · exact stepOK_trans h3 (handlerParamsLoop_ok _ _ _)
  · exact stepOK_comp_advT (stepOK_comp_advT (stepOK_refl st))
  · exact stepOK_advT st

theorem parseDecoratedStatement_ok (st : PState) :
    stepOK st (parseDecoratedStatement st).2 := by
  simp only [parseDecoratedStatement]
  split_ifs
  · exact stepOK_trans (parseDecorators_ok st) (parseStructDecl_ok _)
  · exact stepOK_trans (parseDecorators_ok st) (parsePageDecl_ok _)
  · exact stepOK_trans (parseDecorators_ok st) (parseHandlerDecl_ok _)
  · exact parseDecorators_ok st

theorem parseStatement_ok (st : PState) : stepOK st (parseStatement st).2 := by
  simp only [parseStatement]
  split_ifs
  · exact parseDecoratedStatement_ok st
  · exact parseStructDecl_ok st
  · exact parsePageDecl_ok st
  · exact parseHandlerDecl_ok st
  · exact parseFunctionDecl_ok st
  · exact stepOK_refl st

theorem parseStatement_decrease (st : PState)
    (h : (curT st).type ≠ TT.eof) :
    (advT (parseStatement st).2).toks.length < st.toks.length := by
  have hne : st.toks ≠ [] := by
    intro hnil
    apply h
    rw [curT, hnil]
    rfl
  have hlen := (parseStatement_ok st).1
  have hpos : 0 < st.toks.length := List.length_pos.mpr hne
  simp only [advT, List.length_tail]
  omega

/-- C7: parsing terminates on every input, well-formed or not — the tokenizer
reaches the end-of-input token after finitely many steps (the stream ends with
the EOF token and has at most one token per input character plus one), each
iteration of the top-level statement loop consumes at least one token (the
statement parser never grows the stream, and the loop's trailing advance then
strictly shrinks it), and no parsing step raises an error: diagnostics are
only ever appended to the accumulated list. -/
theorem c7_termination (input : String) (st : PState) :
    (∃ ts t, tokenize input = ts ++ [t] ∧ t.type = TT.eof)
  ∧ (tokenize input).length ≤ input.data.length + 1
  ∧ ((curT st).type ≠ TT.eof →
      (advT (parseStatement st).2).toks.length < st.toks.length)
  ∧ (∃ es, (parseStatement st).2.errs = st.errs ++ es) :=
  ⟨tokenize_eof input, tokenizeFuel_len _ _,
   parseStatement_decrease st, (parseStatement_ok st).2⟩

/-- C7, witness: on the (malformed) input `struct Product \x7bint id;`, the
statement loop's first iteration strictly shrinks the token stream. -/
theorem c7_termination_witness :
    (advT (parseStatement ⟨tokenize "struct Product \x7bint id;", []⟩).2).toks.length
      < (tokenize "struct Product \x7bint id;").length :=
  (c7_termination "struct Product \x7bint id;"
    ⟨tokenize "struct Product \x7bint id;", []⟩).2.2.1 (by decide)

/-- C6, counterexample: after the field `int a` with its missing semicolon,
the well-formed subsequent field `int b;` does NOT reappear in the struct —
the recovery consumes its type token — while the later field `string c;`
does; the diagnostic carries the offending position (line 1, column 18, the
`int` of `int b;`, where the semicolon was expected). -/
theorem c6_counterexample :
    parseZe "struct S \x7b int a int b; string c; \x7d" =
      (⟨[Node.structDecl ⟨"S", [],
          [⟨"c", "string", false, []⟩]⟩]⟩,
       ["Line 1:18: expected ';' after field declaration"]) := by decide

/-- C6, amended: a field declaration (type token, then name) lacking its
terminating semicolon yields no field node and appends exactly one diagnostic
carrying the line and column of the token found where the semicolon was
expected; that token is left as the current token, so the enclosing loop's
one-token advance consumes it — a well-formed field starting right at the
offending position is therefore lost, and only fields after the next
freestanding semicolon are recovered. -/
theorem c6_missing_semicolon (st : PState) (tt nt t : Token)
    (rest : List Token) (htoks : st.toks = tt :: nt :: t :: rest)
    (hty : isTypeTok tt.type = true) (hnt : nt.type = TT.ident)
    (hsemi : ¬t.type = TT.semicolon) :
    parseFieldDecl st = (none, ⟨t :: rest, st.errs ++ ["Line "
      ++ toString t.line ++ ":" ++ toString t.col
      ++ ": expected ';' after field declaration"]⟩) := by
  have hcur : curT st = tt := by rw [curT, htoks]; rfl
  have hcur2 : curT (advT st) = nt := by rw [curT, advT, htoks]; rfl
  have hcur3 : curT (advT (advT st)) = t := by rw [curT, advT, advT, htoks]; rfl
  have hat : ¬(curT st).type = TT.atSign := by
    rw [hcur]
    intro hx
    rw [hx] at hty
    exact absurd hty (by decide)
  have hty' : isTypeTok (curT st).type = true := by rw [hcur]; exact hty
  have hbr : ¬(curT (advT st)).type = TT.lbracket := by
    rw [hcur2, hnt]; decide
  have hid : (curT (advT st)).type = TT.ident := by rw [hcur2]; exact hnt
  have hsemi' : ¬(curT (advT (advT st))).type = TT.semicolon := by
    rw [hcur3]; exact hsemi
  simp only [parseFieldDecl, fieldTail, if_neg hat, if_pos hty', if_neg hbr,
    if_pos hid, if_neg hsemi']
  simp only [addErr, fieldSemiMsg, hcur3, advT]
  rw [htoks]
  simp [curT]

/-- C6, witness: on the token stream of `int a int b;`, the field parser
reports the missing semicolon at the second `int` (line 1, column 7), yields
no field, and leaves that `int` as the current token. -/
theorem c6_missing_semicolon_witness :
    parseFieldDecl ⟨tokenize "int a int b;", []⟩ =
      (none, ⟨(tokenize "int a int b;").drop 2,
        ["Line 1:7: expected ';' after field declaration"]⟩) :=
  (c6_missing_semicolon ⟨tokenize "int a int b;", []⟩
    ⟨TT.kwIntType, "int", 1, 1⟩ ⟨TT.ident, "a", 1, 5⟩
    ⟨TT.kwIntType, "int", 1, 7⟩ ((tokenize "int a int b;").drop 3)
    (by decide) (by decide) (by decide) (by decide)).trans (by decide)

end Zelang
